import Mathlib

set_option maxRecDepth 100000

/-!
Verification of the shaneshi/Copyright-Apply orchestrator against its design
specification.  The Python sources (`main.py`, `ai_bridge.py`) are embedded
shallowly: Python strings become `List Char` (so `len` is `List.length`,
codepoint for codepoint), dictionaries become association lists, and the
file-system / external-agent interactions become explicit state and oracle
parameters.  Each definition carries a comment naming the source function it
embeds.
-/

/-- Convert a Lean string literal to the `List Char` representation used for
Python strings throughout this development. -/
def chars (s : String) : List Char := s.toList

/-- Python `needle == haystack[:len(needle)]`: Boolean prefix test on
character lists. -/
def isPre : List Char → List Char → Bool
  | [], _ => true
  | _ :: _, [] => false
  | a :: as, b :: bs => a == b && isPre as bs

/-- Python `needle in haystack`: Boolean substring test on character lists. -/
def hasSub (pat : List Char) : List Char → Bool
  | [] => pat.isEmpty
  | c :: rest => isPre pat (c :: rest) || hasSub pat rest

/-- ASCII lowering of one character, the part of Python `str.lower` relevant
to the tag checks of `_validate_html` (non-ASCII characters are unchanged). -/
def lowerCh (c : Char) : Char :=
  if 'A' ≤ c ∧ c ≤ 'Z' then Char.ofNat (c.toNat + 32) else c

/-- Python `str.lower` on the character-list representation. -/
def pyLower (s : List Char) : List Char := s.map lowerCh

/-- Decimal rendering of a natural number, matching Python `str(int)` for
non-negative values. -/
def natRepr (n : Nat) : List Char := (Nat.repr n).toList

/-- `main.py` lines 1883-1893: the fixed denylist of explanatory phrases
checked by `SoftwareCopyrightOrchestrator._validate_html`. -/
def failure_patterns : List (List Char) :=
  [ chars "I\x27ve created a complete",
    chars "Here\x27s what\x27s included:",
    chars "The page includes:",
    chars "**Design Features:**",
    chars "**Structure:**",
    chars "**Features Implemented:**",
    chars "**Code Details:**",
    chars "The file has been created successfully",
    chars "This is a production-ready" ]

/-- `main.py` lines 1862-1908, `SoftwareCopyrightOrchestrator._validate_html`:
structural acceptance check for generated HTML.  Returns
`(is_valid, error_message)`; checks are performed in source order and
short-circuit on the first failure. -/
def validate_html (html_code : List Char) : Bool × List Char :=
  let html_lower := pyLower html_code
  if hasSub (chars "<html") html_lower = false then
    (false, chars "缺少 <html> 标签")
  else if hasSub (chars "<head") html_lower = false then
    (false, chars "缺少 <head> 标签")
  else if hasSub (chars "<body") html_lower = false then
    (false, chars "缺少 <body> 标签")
  else if hasSub (chars "</html>") html_lower = false then
    (false, chars "缺少 </html> 结束标签")
  else
    match failure_patterns.find? (fun pattern => hasSub pattern html_code) with
    | some pattern =>
        (false, chars "包含说明文字而非 HTML 代码 (检测到: \x27" ++ pattern ++ chars "\x27)")
    | none =>
        if html_code.length < 1000 then
          (false, chars "HTML 内容过短 (" ++ natRepr html_code.length ++ chars " 字符)")
        else if hasSub (chars "<style") html_lower = false then
          (false, chars "缺少 <style> 标签")
        else
          (true, [])

/-- Python `"\n".join(lines)` on the character-list representation. -/
def joinLines : List (List Char) → List Char
  | [] => []
  | [l] => l
  | l :: ls => l ++ '\n' :: joinLines ls

/-- The `module_info` dictionary passed around by `main.py` / `ai_bridge.py`:
only its `description` and `features` entries are ever read (with `.get`
defaults of `''` and `[]`, so a missing dictionary is modelled by empty
fields). -/
structure ModuleInfo where
  description : List Char
  features : List (List Char)

/-- `main.py` lines 462-467 of `_generate_html_template`: document head up to
the `<style>` block. -/
def template_head_lines (module_name software_name : List Char) : List (List Char) :=
  [chars "<!DOCTYPE html>",
   chars "<html lang=\"zh-CN\">",
   chars "<head>",
   chars "    <meta charset=\"UTF-8\">",
   chars "    <meta name=\"viewport\" content=\"width=device-width, initial-scale=1.0\">",
   chars "    <title>" ++ module_name ++ chars " - " ++ software_name ++ chars "</title>"]

/-- `main.py` lines 468-616 of `_generate_html_template`: the fixed CSS
`<style>` block (no interpolation; Python `{{`/`}}` render as literal
braces, written `\x7b`/`\x7d` here). -/
def template_css_lines : List (List Char) :=
  [chars "    <style>",
   chars "        /* 全局样式 */",
   chars "        * \x7b margin: 0; padding: 0; box-sizing: border-box; \x7d",
   chars "        body \x7b",
   chars "            font-family: \x27Microsoft YaHei\x27, Arial, sans-serif;",
   chars "            background-color: #f5f5f5;",
   chars "            color: #333;",
   chars "        \x7d",
   chars "        /* 主色调: 蓝色 #3498db */",
   chars "        :root \x7b",
   chars "            --primary-color: #3498db;",
   chars "            --primary-dark: #2980b9;",
   chars "            --primary-light: #5dade2;",
   chars "            --text-color: #333;",
   chars "            --bg-color: #f5f5f5;",
   chars "            --white: #ffffff;",
   chars "        \x7d",
   chars "        /* 顶部导航栏 */",
   chars "        .header \x7b",
   chars "            background-color: var(--primary-color);",
   chars "            color: var(--white);",
   chars "            padding: 0 20px;",
   chars "            box-shadow: 0 2px 5px rgba(0,0,0,0.1);",
   chars "        \x7d",
   chars "        .nav-container \x7b",
   chars "            max-width: 1200px;",
   chars "            margin: 0 auto;",
   chars "            display: flex;",
   chars "            justify-content: space-between;",
   chars "            align-items: center;",
   chars "            height: 60px;",
   chars "        \x7d",
   chars "        .logo \x7b",
   chars "            font-size: 20px;",
   chars "            font-weight: bold;",
   chars "        \x7d",
   chars "        .nav-menu \x7b",
   chars "            display: flex;",
   chars "            list-style: none;",
   chars "        \x7d",
   chars "        .nav-menu li \x7b",
   chars "            margin-left: 30px;",
   chars "        \x7d",
   chars "        .nav-menu a \x7b",
   chars "            color: var(--white);",
   chars "            text-decoration: none;",
   chars "            transition: opacity 0.3s;",
   chars "        \x7d",
   chars "        .nav-menu a:hover \x7b",
   chars "            opacity: 0.8;",
   chars "        \x7d",
   chars "        /* 主体内容区 */",
   chars "        .main-container \x7b",
   chars "            max-width: 1200px;",
   chars "            margin: 30px auto;",
   chars "            padding: 0 20px;",
   chars "        \x7d",
   chars "        .page-title \x7b",
   chars "            font-size: 28px;",
   chars "            color: var(--primary-color);",
   chars "            margin-bottom: 20px;",
   chars "            border-bottom: 2px solid var(--primary-color);",
   chars "            padding-bottom: 10px;",
   chars "        \x7d",
   chars "        /* 内容卡片 */",
   chars "        .card \x7b",
   chars "            background-color: var(--white);",
   chars "            border-radius: 8px;",
   chars "            box-shadow: 0 2px 10px rgba(0,0,0,0.1);",
   chars "            padding: 30px;",
   chars "            margin-bottom: 20px;",
   chars "        \x7d",
   chars "        /* 按钮样式 */",
   chars "        .btn \x7b",
   chars "            padding: 10px 20px;",
   chars "            border: none;",
   chars "            border-radius: 4px;",
   chars "            cursor: pointer;",
   chars "            font-size: 14px;",
   chars "            transition: background-color 0.3s;",
   chars "        \x7d",
   chars "        .btn-primary \x7b",
   chars "            background-color: var(--primary-color);",
   chars "            color: var(--white);",
   chars "        \x7d",
   chars "        .btn-primary:hover \x7b",
   chars "            background-color: var(--primary-dark);",
   chars "        \x7d",
   chars "        .btn-secondary \x7b",
   chars "            background-color: #95a5a6;",
   chars "            color: var(--white);",
   chars "        \x7d",
   chars "        /* 表格样式 */",
   chars "        .data-table \x7b",
   chars "            width: 100%;",
   chars "            border-collapse: collapse;",
   chars "            margin-top: 20px;",
   chars "        \x7d",
   chars "        .data-table th,",
   chars "        .data-table td \x7b",
   chars "            padding: 12px;",
   chars "            text-align: left;",
   chars "            border-bottom: 1px solid #ddd;",
   chars "        \x7d",
   chars "        .data-table th \x7b",
   chars "            background-color: var(--primary-color);",
   chars "            color: var(--white);",
   chars "        \x7d",
   chars "        .data-table tr:hover \x7b",
   chars "            background-color: #f9f9f9;",
   chars "        \x7d",
   chars "        /* 表单样式 */",
   chars "        .form-group \x7b",
   chars "            margin-bottom: 20px;",
   chars "        \x7d",
   chars "        .form-group label \x7b",
   chars "            display: block;",
   chars "            margin-bottom: 8px;",
   chars "            font-weight: bold;",
   chars "        \x7d",
   chars "        .form-control \x7b",
   chars "            width: 100%;",
   chars "            padding: 10px;",
   chars "            border: 1px solid #ddd;",
   chars "            border-radius: 4px;",
   chars "            font-size: 14px;",
   chars "        \x7d",
   chars "        .form-control:focus \x7b",
   chars "            outline: none;",
   chars "            border-color: var(--primary-color);",
   chars "        \x7d",
   chars "        /* 响应式设计 */",
   chars "        @media (max-width: 768px) \x7b",
   chars "            .nav-container \x7b",
   chars "                flex-direction: column;",
   chars "                height: auto;",
   chars "                padding: 10px 0;",
   chars "            \x7d",
   chars "            .nav-menu \x7b",
   chars "                margin-top: 10px;",
   chars "            \x7d",
   chars "            .nav-menu li \x7b",
   chars "                margin: 0 15px;",
   chars "            \x7d",
   chars "            .card \x7b",
   chars "                padding: 15px;",
   chars "            \x7d",
   chars "        \x7d",
   chars "    </style>"]

/-- `main.py` lines 617-645 of `_generate_html_template`: document body up to
and including the 功能概述 card (the description line is the body's
`if description: ... else: ...`). -/
def template_body_open_lines (module_name software_name description : List Char) :
    List (List Char) :=
  [chars "</head>",
   chars "<body>",
   chars "    <!-- 顶部导航 -->",
   chars "    <header class=\"header\">",
   chars "        <div class=\"nav-container\">",
   chars "            <div class=\"logo\">" ++ software_name ++ chars "</div>",
   chars "            <ul class=\"nav-menu\">",
   chars "                <li><a href=\"#\">首页</a></li>",
   chars "                <li><a href=\"#\">" ++ module_name ++ chars "</a></li>",
   chars "                <li><a href=\"#\">帮助</a></li>",
   chars "            </ul>",
   chars "        </div>",
   chars "    </header>",
   chars "",
   chars "    <!-- 主体内容 -->",
   chars "    <div class=\"main-container\">",
   chars "        <h1 class=\"page-title\">" ++ module_name ++ chars "</h1>",
   chars "",
   chars "        <!-- 功能说明 -->",
   chars "        <div class=\"card\">",
   chars "            <h2>功能概述</h2>",
   chars "            <p style=\"margin-top: 15px; line-height: 1.8; color: #555;\">",
   (if description = [] then
      chars "                本模块是" ++ software_name ++
        chars "的核心功能模块之一，提供" ++ module_name ++ chars "的完整管理功能。"
    else
      chars "                " ++ description),
   chars "            </p>",
   chars "        </div>",
   chars ""]

/-- `main.py` lines 647-657 of `_generate_html_template`: the 主要功能 card,
emitted only when the feature list is non-empty. -/
def template_features_lines (features : List (List Char)) : List (List Char) :=
  if features = [] then []
  else
    [chars "        <!-- 主要功能 -->",
     chars "        <div class=\"card\">",
     chars "            <h2>主要功能</h2>",
     chars "            <ul style=\"margin-top: 15px; line-height: 2; padding-left: 20px;\">"]
    ++ features.map (fun feature =>
         chars "                <li style=\"margin-bottom: 8px;\">" ++ feature ++ chars "</li>")
    ++ [chars "            </ul>",
        chars "        </div>",
        chars ""]

/-- `main.py` lines 662-685 of `_generate_html_template`: footer and script
after the module-specific content. -/
def template_tail_lines (module_name software_name : List Char) : List (List Char) :=
  [chars "    </div>",
   chars "",
   chars "    <!-- 页脚 -->",
   chars "    <footer style=\"background-color: #333; color: #fff; text-align: center; padding: 20px; margin-top: 50px;\">",
   chars "        <p>&copy; 2024 " ++ software_name ++ chars ". All rights reserved.</p>",
   chars "    </footer>",
   chars "",
   chars "    <script>",
   chars "        // 页面加载完成后执行",
   chars "        document.addEventListener(\x27DOMContentLoaded\x27, function() \x7b",
   chars "            console.log(\x27" ++ module_name ++ chars " 页面已加载\x27);",
   chars "            ",
   chars "            // 按钮点击事件",
   chars "            const buttons = document.querySelectorAll(\x27.btn\x27);",
   chars "            buttons.forEach(function(btn) \x7b",
   chars "                btn.addEventListener(\x27click\x27, function() \x7b",
   chars "                    alert(\x27功能演示：\x27 + this.textContent);",
   chars "                \x7d);",
   chars "            \x7d);",
   chars "        \x7d);",
   chars "    </script>",
   chars "</body>",
   chars "</html>"]

/-- `main.py` lines 1056-1400, `_generate_module_specific_content`: fixed
per-archetype content selected by substring dispatch over the module name
(the `software_name` parameter is accepted but unused, as in the source). -/
def generate_module_specific_content (module_name software_name : List Char) :
    List (List Char) :=
  if hasSub (chars "取号") module_name || hasSub (chars "排队") module_name then
    [chars "        <!-- 取号操作区 -->",
     chars "        <div class=\"card\">",
     chars "            <h2>自助取号</h2>",
     chars "            <div style=\"display: grid; grid-template-columns: repeat(auto-fit, minmax(150px, 1fr)); gap: 15px; margin-top: 20px;\">",
     chars "                <button class=\"btn btn-primary\" style=\"padding: 30px; font-size: 18px;\">身份证取号</button>",
     chars "                <button class=\"btn btn-primary\" style=\"padding: 30px; font-size: 18px;\">医保卡取号</button>",
     chars "                <button class=\"btn btn-primary\" style=\"padding: 30px; font-size: 18px;\">就诊卡取号</button>",
     chars "                <button class=\"btn btn-secondary\" style=\"padding: 30px; font-size: 18px;\">手动输入</button>",
     chars "            </div>",
     chars "        </div>",
     chars "",
     chars "        <!-- 科室选择 -->",
     chars "        <div class=\"card\">",
     chars "            <h2>科室列表</h2>",
     chars "            <table class=\"data-table\">",
     chars "                <thead><tr><th>科室名称</th><th>当前等待</th><th>预计时间</th><th>操作</th></tr></thead>",
     chars "                <tbody>",
     chars "                    <tr><td>内科门诊</td><td>15人</td><td>约30分钟</td><td><button class=\"btn btn-primary\">取号</button></td></tr>",
     chars "                    <tr><td>外科门诊</td><td>8人</td><td>约15分钟</td><td><button class=\"btn btn-primary\">取号</button></td></tr>",
     chars "                    <tr><td>儿科门诊</td><td>22人</td><td>约45分钟</td><td><button class=\"btn btn-primary\">取号</button></td></tr>",
     chars "                </tbody>",
     chars "            </table>",
     chars "        </div>"]
  else if hasSub (chars "队列") module_name then
    [chars "        <!-- 队列监控 -->",
     chars "        <div class=\"card\">",
     chars "            <h2>队列实时监控</h2>",
     chars "            <div style=\"display: grid; grid-template-columns: repeat(4, 1fr); gap: 15px; margin: 20px 0;\">",
     chars "                <div style=\"text-align: center; padding: 20px; background: #e3f2fd; border-radius: 8px;\">",
     chars "                    <div style=\"font-size: 32px; color: var(--primary-color); font-weight: bold;\">156</div>",
     chars "                    <div style=\"color: #666;\">总排队人数</div>",
     chars "                </div>",
     chars "                <div style=\"text-align: center; padding: 20px; background: #e8f5e9; border-radius: 8px;\">",
     chars "                    <div style=\"font-size: 32px; color: #4caf50; font-weight: bold;\">45</div>",
     chars "                    <div style=\"color: #666;\">今日已就诊</div>",
     chars "                </div>",
     chars "                <div style=\"text-align: center; padding: 20px; background: #fff3e0; border-radius: 8px;\">",
     chars "                    <div style=\"font-size: 32px; color: #ff9800; font-weight: bold;\">12</div>",
     chars "                    <div style=\"color: #666;\">过号人数</div>",
     chars "                </div>",
     chars "                <div style=\"text-align: center; padding: 20px; background: #f3e5f5; border-radius: 8px;\">",
     chars "                    <div style=\"font-size: 32px; color: #9c27b0; font-weight: bold;\">8</div>",
     chars "                    <div style=\"color: #666;\">活跃科室</div>",
     chars "                </div>",
     chars "            </div>",
     chars "        </div>",
     chars "",
     chars "        <!-- 队列管理 -->",
     chars "        <div class=\"card\">",
     chars "            <h2>队列操作</h2>",
     chars "            <table class=\"data-table\">",
     chars "                <thead><tr><th>科室</th><th>等待人数</th><th>当前号码</th><th>状态</th><th>操作</th></tr></thead>",
     chars "                <tbody>",
     chars "                    <tr><td>内科</td><td>15</td><td>A023</td><td><span style=\"color: green;\">运行中</span></td>",
     chars "                        <td><button class=\"btn btn-secondary\">暂停</button> <button class=\"btn btn-secondary\">清空</button></td></tr>",
     chars "                    <tr><td>外科</td><td>8</td><td>B012</td><td><span style=\"color: green;\">运行中</span></td>",
     chars "                        <td><button class=\"btn btn-secondary\">暂停</button> <button class=\"btn btn-secondary\">清空</button></td></tr>",
     chars "                </tbody>",
     chars "            </table>",
     chars "        </div>"]
  else if hasSub (chars "叫号") module_name && hasSub (chars "显示") module_name then
    [chars "        <!-- 叫号显示屏 -->",
     chars "        <div class=\"card\" style=\"background: linear-gradient(135deg, #667eea 0%, #764ba2 100%); color: white;\">",
     chars "            <h2 style=\"color: white; text-align: center; font-size: 48px; margin: 30px 0;\">正在叫号</h2>",
     chars "            <div style=\"text-align: center; padding: 40px;\">",
     chars "                <div style=\"font-size: 120px; font-weight: bold; margin: 20px 0;\">A023</div>",
     chars "                <div style=\"font-size: 36px;\">请到 内科门诊 就诊</div>",
     chars "            </div>",
     chars "        </div>",
     chars "",
     chars "        <!-- 等待列表 -->",
     chars "        <div class=\"card\">",
     chars "            <h2>等待列表</h2>",
     chars "            <div style=\"display: grid; grid-template-columns: repeat(auto-fit, minmax(200px, 1fr)); gap: 15px; margin-top: 20px;\">",
     chars "                <div style=\"padding: 20px; background: #f5f5f5; border-radius: 8px; text-align: center;\">",
     chars "                    <div style=\"font-size: 36px; color: var(--primary-color); font-weight: bold;\">A024</div>",
     chars "                    <div style=\"margin-top: 10px;\">前方 1 人</div>",
     chars "                </div>",
     chars "                <div style=\"padding: 20px; background: #f5f5f5; border-radius: 8px; text-align: center;\">",
     chars "                    <div style=\"font-size: 36px; color: var(--primary-color); font-weight: bold;\">A025</div>",
     chars "                    <div style=\"margin-top: 10px;\">前方 2 人</div>",
     chars "                </div>",
     chars "                <div style=\"padding: 20px; background: #f5f5f5; border-radius: 8px; text-align: center;\">",
     chars "                    <div style=\"font-size: 36px; color: var(--primary-color); font-weight: bold;\">A026</div>",
     chars "                    <div style=\"margin-top: 10px;\">前方 3 人</div>",
     chars "                </div>",
     chars "            </div>",
     chars "        </div>"]
  else if hasSub (chars "医生") module_name || hasSub (chars "接诊") module_name then
    [chars "        <!-- 医生工作台 -->",
     chars "        <div class=\"card\">",
     chars "            <h2>当前就诊患者</h2>",
     chars "            <div style=\"background: #e3f2fd; padding: 30px; border-radius: 8px; margin-top: 20px;\">",
     chars "                <div style=\"display: flex; justify-content: space-between; align-items: center;\">",
     chars "                    <div>",
     chars "                        <div style=\"font-size: 48px; color: var(--primary-color); font-weight: bold;\">A023</div>",
     chars "                        <div style=\"font-size: 20px; margin-top: 10px;\">张三 · 男 · 35岁</div>",
     chars "                    </div>",
     chars "                    <div style=\"display: flex; gap: 10px;\">",
     chars "                        <button class=\"btn btn-primary\" style=\"padding: 15px 30px; font-size: 16px;\">叫号</button>",
     chars "                        <button class=\"btn btn-secondary\" style=\"padding: 15px 30px; font-size: 16px;\">过号</button>",
     chars "                        <button class=\"btn btn-secondary\" style=\"padding: 15px 30px; font-size: 16px;\">完成</button>",
     chars "                    </div>",
     chars "                </div>",
     chars "            </div>",
     chars "        </div>",
     chars "",
     chars "        <!-- 就诊记录 -->",
     chars "        <div class=\"card\">",
     chars "            <h2>今日就诊记录</h2>",
     chars "            <table class=\"data-table\">",
     chars "                <thead><tr><th>序号</th><th>姓名</th><th>就诊时间</th><th>状态</th></tr></thead>",
     chars "                <tbody>",
     chars "                    <tr><td>A020</td><td>李四</td><td>10:15</td><td><span style=\"color: green;\">已完成</span></td></tr>",
     chars "                    <tr><td>A021</td><td>王五</td><td>10:30</td><td><span style=\"color: green;\">已完成</span></td></tr>",
     chars "                    <tr><td>A022</td><td>赵六</td><td>10:45</td><td><span style=\"color: orange;\">过号</span></td></tr>",
     chars "                </tbody>",
     chars "            </table>",
     chars "        </div>"]
  else if hasSub (chars "统计") module_name || hasSub (chars "报表") module_name then
    [chars "        <!-- 统计概览 -->",
     chars "        <div class=\"card\">",
     chars "            <h2>数据统计</h2>",
     chars "            <div style=\"display: grid; grid-template-columns: repeat(auto-fit, minmax(200px, 1fr)); gap: 20px; margin-top: 20px;\">",
     chars "                <div style=\"padding: 20px; background: linear-gradient(135deg, #667eea 0%, #764ba2 100%); color: white; border-radius: 8px;\">",
     chars "                    <div style=\"font-size: 36px; font-weight: bold;\">1,234</div>",
     chars "                    <div style=\"opacity: 0.9;\">今日就诊量</div>",
     chars "                </div>",
     chars "                <div style=\"padding: 20px; background: linear-gradient(135deg, #f093fb 0%, #f5576c 100%); color: white; border-radius: 8px;\">",
     chars "                    <div style=\"font-size: 36px; font-weight: bold;\">18.5</div>",
     chars "                    <div style=\"opacity: 0.9;\">平均等待(分钟)</div>",
     chars "                </div>",
     chars "                <div style=\"padding: 20px; background: linear-gradient(135deg, #4facfe 0%, #00f2fe 100%); color: white; border-radius: 8px;\">",
     chars "                    <div style=\"font-size: 36px; font-weight: bold;\">98.5%</div>",
     chars "                    <div style=\"opacity: 0.9;\">患者满意度</div>",
     chars "                </div>",
     chars "                <div style=\"padding: 20px; background: linear-gradient(135deg, #43e97b 0%, #38f9d7 100%); color: white; border-radius: 8px;\">",
     chars "                    <div style=\"font-size: 36px; font-weight: bold;\">15</div>",
     chars "                    <div style=\"opacity: 0.9;\">活跃科室</div>",
     chars "                </div>",
     chars "            </div>",
     chars "        </div>",
     chars "",
     chars "        <!-- 报表导出 -->",
     chars "        <div class=\"card\">",
     chars "            <h2>报表管理</h2>",
     chars "            <div style=\"display: flex; gap: 15px; margin-top: 20px;\">",
     chars "                <button class=\"btn btn-primary\">日报表</button>",
     chars "                <button class=\"btn btn-primary\">周报表</button>",
     chars "                <button class=\"btn btn-primary\">月报表</button>",
     chars "                <button class=\"btn btn-secondary\">自定义报表</button>",
     chars "            </div>",
     chars "        </div>"]
  else if hasSub (chars "系统") module_name || hasSub (chars "管理") module_name then
    [chars "        <!-- 系统配置 -->",
     chars "        <div class=\"card\">",
     chars "            <h2>系统参数设置</h2>",
     chars "            <div class=\"form-group\" style=\"margin-top: 20px;\">",
     chars "                <label>叫号间隔时间（秒）</label>",
     chars "                <input type=\"number\" class=\"form-control\" value=\"30\">",
     chars "            </div>",
     chars "            <div class=\"form-group\">",
     chars "                <label>语音播报音量</label>",
     chars "                <input type=\"range\" class=\"form-control\" min=\"0\" max=\"100\" value=\"70\">",
     chars "            </div>",
     chars "            <div class=\"form-group\">",
     chars "                <label>过号自动重排</label>",
     chars "                <select class=\"form-control\"><option>启用</option><option>禁用</option></select>",
     chars "            </div>",
     chars "            <button class=\"btn btn-primary\">保存设置</button>",
     chars "        </div>",
     chars "",
     chars "        <!-- 用户管理 -->",
     chars "        <div class=\"card\">",
     chars "            <h2>用户权限管理</h2>",
     chars "            <table class=\"data-table\">",
     chars "                <thead><tr><th>用户名</th><th>角色</th><th>状态</th><th>操作</th></tr></thead>",
     chars "                <tbody>",
     chars "                    <tr><td>admin</td><td>管理员</td><td><span style=\"color: green;\">正常</span></td><td><a href=\"#\">编辑</a></td></tr>",
     chars "                    <tr><td>doctor01</td><td>医生</td><td><span style=\"color: green;\">正常</span></td><td><a href=\"#\">编辑</a></td></tr>",
     chars "                    <tr><td>nurse01</td><td>护士</td><td><span style=\"color: green;\">正常</span></td><td><a href=\"#\">编辑</a></td></tr>",
     chars "                </tbody>",
     chars "            </table>",
     chars "            <button class=\"btn btn-primary\" style=\"margin-top: 15px;\">添加用户</button>",
     chars "        </div>"]
  else if hasSub (chars "候诊") module_name || hasSub (chars "引导") module_name then
    [chars "        <!-- 候诊导航 -->",
     chars "        <div class=\"card\">",
     chars "            <h2>候诊区导航</h2>",
     chars "            <div style=\"background: #f5f5f5; padding: 30px; border-radius: 8px; margin-top: 20px;\">",
     chars "                <div style=\"display: grid; grid-template-columns: repeat(3, 1fr); gap: 20px;\">",
     chars "                    <div style=\"background: white; padding: 20px; border-radius: 8px; text-align: center;\">",
     chars "                        <div style=\"font-size: 48px;\">🏥</div>",
     chars "                        <div style=\"margin-top: 10px; font-weight: bold;\">一楼 - 内科区</div>",
     chars "                        <div style=\"color: #666; font-size: 14px; margin-top: 5px;\">等待: 15人</div>",
     chars "                    </div>",
     chars "                    <div style=\"background: white; padding: 20px; border-radius: 8px; text-align: center;\">",
     chars "                        <div style=\"font-size: 48px;\">💊</div>",
     chars "                        <div style=\"margin-top: 10px; font-weight: bold;\">二楼 - 外科区</div>",
     chars "                        <div style=\"color: #666; font-size: 14px; margin-top: 5px;\">等待: 8人</div>",
     chars "                    </div>",
     chars "                    <div style=\"background: white; padding: 20px; border-radius: 8px; text-align: center;\">",
     chars "                        <div style=\"font-size: 48px;\">👶</div>",
     chars "                        <div style=\"margin-top: 10px; font-weight: bold;\">三楼 - 儿科区</div>",
     chars "                        <div style=\"color: #666; font-size: 14px; margin-top: 5px;\">等待: 22人</div>",
     chars "                    </div>",
     chars "                </div>",
     chars "            </div>",
     chars "        </div>",
     chars "",
     chars "        <!-- 我的排队 -->",
     chars "        <div class=\"card\">",
     chars "            <h2>我的排队状态</h2>",
     chars "            <div style=\"background: #e3f2fd; padding: 25px; border-radius: 8px; margin: 20px 0;\">",
     chars "                <div style=\"display: flex; justify-content: space-between;\">",
     chars "                    <div>",
     chars "                        <div style=\"font-size: 14px; color: #666;\">当前号码</div>",
     chars "                        <div style=\"font-size: 36px; color: var(--primary-color); font-weight: bold;\">A023</div>",
     chars "                    </div>",
     chars "                    <div>",
     chars "                        <div style=\"font-size: 14px; color: #666;\">前方等待</div>",
     chars "                        <div style=\"font-size: 36px; color: #ff9800; font-weight: bold;\">3人</div>",
     chars "                    </div>",
     chars "                    <div>",
     chars "                        <div style=\"font-size: 14px; color: #666;\">预计等待</div>",
     chars "                        <div style=\"font-size: 36px; color: #4caf50; font-weight: bold;\">15分</div>",
     chars "                    </div>",
     chars "                </div>",
     chars "            </div>",
     chars "        </div>"]
  else if hasSub (chars "预约") module_name then
    [chars "        <!-- 预约管理 -->",
     chars "        <div class=\"card\">",
     chars "            <h2>预约挂号</h2>",
     chars "            <div class=\"form-group\" style=\"margin-top: 20px;\">",
     chars "                <label>选择科室</label>",
     chars "                <select class=\"form-control\"><option>请选择...</option><option>内科</option><option>外科</option></select>",
     chars "            </div>",
     chars "            <div class=\"form-group\">",
     chars "                <label>选择医生</label>",
     chars "                <select class=\"form-control\"><option>请选择...</option><option>张医生</option><option>李医生</option></select>",
     chars "            </div>",
     chars "            <div class=\"form-group\">",
     chars "                <label>预约日期</label>",
     chars "                <input type=\"date\" class=\"form-control\">",
     chars "            </div>",
     chars "            <div class=\"form-group\">",
     chars "                <label>预约时段</label>",
     chars "                <select class=\"form-control\"><option>08:00-09:00</option><option>09:00-10:00</option></select>",
     chars "            </div>",
     chars "            <button class=\"btn btn-primary\">提交预约</button>",
     chars "        </div>",
     chars "",
     chars "        <!-- 预约列表 -->",
     chars "        <div class=\"card\">",
     chars "            <h2>我的预约</h2>",
     chars "            <table class=\"data-table\">",
     chars "                <thead><tr><th>医生</th><th>日期</th><th>时段</th><th>状态</th><th>操作</th></tr></thead>",
     chars "                <tbody>",
     chars "                    <tr><td>张医生(内科)</td><td>2024-01-16</td><td>09:00-10:00</td><td><span style=\"color: green;\">已确认</span></td><td><a href=\"#\">取消</a></td></tr>",
     chars "                    <tr><td>李医生(外科)</td><td>2024-01-17</td><td>14:00-15:00</td><td><span style=\"color: orange;\">待确认</span></td><td><a href=\"#\">取消</a></td></tr>",
     chars "                </tbody>",
     chars "            </table>",
     chars "        </div>"]
  else if hasSub (chars "通知") module_name || hasSub (chars "消息") module_name then
    [chars "        <!-- 消息设置 -->",
     chars "        <div class=\"card\">",
     chars "            <h2>通知渠道设置</h2>",
     chars "            <div style=\"margin-top: 20px;\">",
     chars "                <div style=\"padding: 15px; background: #f5f5f5; border-radius: 8px; margin-bottom: 10px; display: flex; justify-content: space-between;\">",
     chars "                    <div><strong>短信通知</strong><br><small style=\"color: #666;\">发送到注册手机</small></div>",
     chars "                    <input type=\"checkbox\" checked>",
     chars "                </div>",
     chars "                <div style=\"padding: 15px; background: #f5f5f5; border-radius: 8px; margin-bottom: 10px; display: flex; justify-content: space-between;\">",
     chars "                    <div><strong>微信推送</strong><br><small style=\"color: #666;\">通过微信公众号推送</small></div>",
     chars "                    <input type=\"checkbox\" checked>",
     chars "                </div>",
     chars "                <div style=\"padding: 15px; background: #f5f5f5; border-radius: 8px; margin-bottom: 10px; display: flex; justify-content: space-between;\">",
     chars "                    <div><strong>APP推送</strong><br><small style=\"color: #666;\">手机APP推送通知</small></div>",
     chars "                    <input type=\"checkbox\">",
     chars "                </div>",
     chars "            </div>",
     chars "        </div>",
     chars "",
     chars "        <!-- 消息记录 -->",
     chars "        <div class=\"card\">",
     chars "            <h2>消息发送记录</h2>",
     chars "            <table class=\"data-table\">",
     chars "                <thead><tr><th>时间</th><th>类型</th><th>接收人</th><th>内容</th><th>状态</th></tr></thead>",
     chars "                <tbody>",
     chars "                    <tr><td>10:30</td><td>短信</td><td>张三</td><td>您的号码A023即将就诊</td><td><span style=\"color: green;\">成功</span></td></tr>",
     chars "                    <tr><td>10:25</td><td>微信</td><td>李四</td><td>前方还有2人，请留意</td><td><span style=\"color: green;\">成功</span></td></tr>",
     chars "                    <tr><td>10:20</td><td>短信</td><td>王五</td><td>预约已确认</td><td><span style=\"color: green;\">成功</span></td></tr>",
     chars "                </tbody>",
     chars "            </table>",
     chars "        </div>"]
  else
    [chars "        <!-- 操作区 -->",
     chars "        <div class=\"card\">",
     chars "            <h2>操作面板</h2>",
     chars "            <div style=\"margin-top: 20px;\">",
     chars "                <button class=\"btn btn-primary\">新建</button>",
     chars "                <button class=\"btn btn-secondary\">查询</button>",
     chars "                <button class=\"btn btn-secondary\">导出</button>",
     chars "            </div>",
     chars "        </div>",
     chars "",
     chars "        <!-- 数据表格 -->",
     chars "        <div class=\"card\">",
     chars "            <h2>数据列表</h2>",
     chars "            <table class=\"data-table\">",
     chars "                <thead><tr><th>编号</th><th>名称</th><th>状态</th><th>操作</th></tr></thead>",
     chars "                <tbody>",
     chars "                    <tr><td>001</td><td>示例数据1</td><td><span style=\"color: green;\">正常</span></td><td><a href=\"#\" style=\"color: var(--primary-color);\">查看</a></td></tr>",
     chars "                    <tr><td>002</td><td>示例数据2</td><td><span style=\"color: green;\">正常</span></td><td><a href=\"#\" style=\"color: var(--primary-color);\">查看</a></td></tr>",
     chars "                </tbody>",
     chars "            </table>",
     chars "        </div>"]

/-- `main.py` lines 454-686, `ClaudeCodeIntegrator._generate_html_template`:
the deterministic fallback HTML generator (the unused `target_lines`
parameter of the source is dropped; `module_info=None` is modelled by
empty description and features). -/
def generate_html_template (module_name software_name : List Char)
    (module_info : ModuleInfo) : List Char :=
  joinLines
    (template_head_lines module_name software_name
      ++ template_css_lines
      ++ template_body_open_lines module_name software_name module_info.description
      ++ template_features_lines module_info.features
      ++ generate_module_specific_content module_name software_name
      ++ template_tail_lines module_name software_name)

/-- `ai_bridge.py` lines 402-447, `_generate_html_fallback`: the simplified
fallback HTML generator of the bridge module. -/
def generate_html_fallback (module_name software_name : List Char)
    (module_info : ModuleInfo) : List Char :=
  joinLines
    ([chars "<!-- " ++ module_name ++ chars " - " ++ software_name ++ chars " -->",
      chars "<!-- " ++ module_info.description ++ chars " -->",
      chars "<!DOCTYPE html>",
      chars "<html lang=\"zh-CN\">",
      chars "<head>",
      chars "    <meta charset=\"UTF-8\">",
      chars "    <meta name=\"viewport\" content=\"width=device-width, initial-scale=1.0\">",
      chars "    <title>" ++ module_name ++ chars " - " ++ software_name ++ chars "</title>",
      chars "    <style>",
      chars "        /* CSS Styles */",
      chars "        * \x7b margin: 0; padding: 0; box-sizing: border-box; \x7d",
      chars "        body \x7b font-family: \x27Microsoft YaHei\x27, Arial, sans-serif; background: #f5f5f5; \x7d",
      chars "        .container \x7b max-width: 1200px; margin: 0 auto; padding: 20px; \x7d",
      chars "        header \x7b background: #3498db; color: white; padding: 20px; \x7d",
      chars "        main \x7b background: white; padding: 30px; margin-top: 20px; \x7d",
      chars "        .feature \x7b padding: 10px; margin: 10px 0; background: #f9f9f9; \x7d",
      chars "        footer \x7b text-align: center; padding: 20px; color: #666; \x7d",
      chars "    </style>",
      chars "</head>",
      chars "<body>",
      chars "    <div class=\x27container\x27>",
      chars "        <header><h1>" ++ module_name ++ chars "</h1></header>",
      chars "        <main>",
      chars "            <h2>功能概述</h2>",
      chars "            <p>" ++ module_info.description ++ chars "</p>",
      chars "            <h2>主要功能</h2>"]
     ++ module_info.features.map (fun feature =>
          chars "            <div class=\x27feature\x27>✓ " ++ feature ++ chars "</div>")
     ++ [chars "        </main>",
         chars "        <footer>&copy; 2024 " ++ software_name ++ chars "</footer>",
         chars "    </div>",
         chars "</body>",
         chars "</html>"])

/-- The line list produced by `_generate_html_fallback` for empty module
name, software name, description and features, written out as a concrete
expected value (checked definitionally against `generate_html_fallback`
below). -/
def fallback_empty_lines : List (List Char) :=
  [chars "<!--  -  -->",
   chars "<!--  -->",
   chars "<!DOCTYPE html>",
   chars "<html lang=\"zh-CN\">",
   chars "<head>",
   chars "    <meta charset=\"UTF-8\">",
   chars "    <meta name=\"viewport\" content=\"width=device-width, initial-scale=1.0\">",
   chars "    <title> - </title>",
   chars "    <style>",
   chars "        /* CSS Styles */",
   chars "        * \x7b margin: 0; padding: 0; box-sizing: border-box; \x7d",
   chars "        body \x7b font-family: \x27Microsoft YaHei\x27, Arial, sans-serif; background: #f5f5f5; \x7d",
   chars "        .container \x7b max-width: 1200px; margin: 0 auto; padding: 20px; \x7d",
   chars "        header \x7b background: #3498db; color: white; padding: 20px; \x7d",
   chars "        main \x7b background: white; padding: 30px; margin-top: 20px; \x7d",
   chars "        .feature \x7b padding: 10px; margin: 10px 0; background: #f9f9f9; \x7d",
   chars "        footer \x7b text-align: center; padding: 20px; color: #666; \x7d",
   chars "    </style>",
   chars "</head>",
   chars "<body>",
   chars "    <div class=\x27container\x27>",
   chars "        <header><h1></h1></header>",
   chars "        <main>",
   chars "            <h2>功能概述</h2>",
   chars "            <p></p>",
   chars "            <h2>主要功能</h2>",
   chars "        </main>",
   chars "        <footer>&copy; 2024 </footer>",
   chars "    </div>",
   chars "</body>",
   chars "</html>"]

/-- `main.py` lines 1648-1696 of
`SoftwareCopyrightOrchestrator.generate_frontend_code`, the per-module
validation-and-retry loop.  The external generation call
(`claude.generate_html_code`) is abstracted by `oracle` giving the content
produced at each attempt; the module's output file is the threaded
`Option (List Char)` (`none` = absent, mirroring the `filepath.unlink()`
deletion before a retry; `generate_html_code` itself returns a cached file
when it exists and is non-empty, `main.py` lines 319-322). -/
def run_attempts (oracle : Nat → List Char) (fallback_html : List Char) :
    List Nat → Option (List Char) → Option (List Char)
  | [], fs => fs
  | attempt :: rest, fs =>
      let html_code :=
        match fs with
        | some c => if 0 < c.length then c else oracle attempt
        | none => oracle attempt
      if (validate_html html_code).1 = true then some html_code
      else if rest = [] then some fallback_html
      else run_attempts oracle fallback_html rest none

/-- One module's pass of `generate_frontend_code` (`max_retries = 3`,
attempts `0, 1, 2`), starting with no output file on disk; the fallback is
`_generate_html_template`, exactly as at `main.py` lines 1685-1692. -/
def generate_frontend_module (oracle : Nat → List Char)
    (module_name software_name : List Char) (module_info : ModuleInfo) :
    Option (List Char) :=
  run_attempts oracle (generate_html_template module_name software_name module_info)
    [0, 1, 2] none

/-- `main.py` line 213: the literal token built for a key by
`replace_variables`, Python `f"{{{{{key}}}}}"`, i.e. `{{key}}`. -/
def placeholder (key : List Char) : List Char :=
  '\x7b' :: '\x7b' :: (key ++ ['\x7d', '\x7d'])

/-- The left-to-right scan of Python `str.replace`, made structurally
recursive on a fuel argument (one unit per scan step; any fuel at least the
string length gives the same result, see `pyReplaceF_fuel_irrel`). -/
def pyReplaceF (pat rep : List Char) : Nat → List Char → List Char
  | _, [] => []
  | 0, s => s
  | fuel + 1, c :: rest =>
    if pat ≠ [] ∧ isPre pat (c :: rest) = true then
      rep ++ pyReplaceF pat rep fuel (List.drop (pat.length - 1) rest)
    else
      c :: pyReplaceF pat rep fuel rest

/-- Python `str.replace` (all non-overlapping occurrences, scanned left to
right).  The source only ever calls it with the non-empty pattern
`placeholder key`; for `pat = []` this model returns the string unchanged. -/
def pyReplace (pat rep s : List Char) : List Char :=
  pyReplaceF pat rep s.length s

/-- `main.py` lines 209-215, `replace_variables`: sequential
`result.replace(placeholder, value)` over the variable mapping in iteration
order. -/
def replace_variables (template : List Char) (variable_map : List (List Char × List Char)) :
    List Char :=
  variable_map.foldl (fun result kv => pyReplace (placeholder kv.1) kv.2 result) template

/-- A key (or token) that contains no brace character; the well-formedness
condition under which two `placeholder` tokens of distinct keys cannot
overlap. -/
@[reducible]
def braceFree (key : List Char) : Prop :=
  ∀ c ∈ key, ¬(c = '\x7b' ∨ c = '\x7d')

/-- Whitespace characters removed by Python `str.strip` (ASCII part). -/
def isSpaceCh (c : Char) : Bool :=
  c = ' ' || c = '\t' || c = '\n' || c = '\r' || c = '\x0b' || c = '\x0c'

/-- Python `str.lstrip()`. -/
def pyLStrip (s : List Char) : List Char := s.dropWhile isSpaceCh

/-- Python `str.rstrip()`. -/
def pyRStrip (s : List Char) : List Char := (s.reverse.dropWhile isSpaceCh).reverse

/-- Python `str.strip()`. -/
def pyStrip (s : List Char) : List Char := pyRStrip (pyLStrip s)

/-- Python `str.endswith`. -/
def isSuf (pat s : List Char) : Bool := isPre pat.reverse s.reverse

/-- Python `s.split("\n", 1)[1]`: everything after the first newline (only
used when a newline is present). -/
def afterFirstNL (s : List Char) : List Char :=
  (s.dropWhile (fun c => !(c == '\n'))).drop 1

/-- A JSON value, the result of a successful Python `json.loads`. -/
inductive JValue where
  | null : JValue
  | bool (b : Bool) : JValue
  | num (n : Int) : JValue
  | str (s : List Char) : JValue
  | arr (elems : List JValue) : JValue
  | obj (fields : List (List Char × JValue)) : JValue

/-- The Python exceptions that the bridge code can raise past its handlers:
`KeyError` from `data[k]` on a missing key, `TypeError` (and the analogous
`AttributeError`) from applying a dict/str operation to a value of the wrong
shape. -/
inductive PyErr where
  | keyError : PyErr
  | typeError : PyErr
deriving DecidableEq

/-- Whether a JSON value is an object (a Python dict after `json.loads`). -/
def isObj : JValue → Bool
  | JValue.obj _ => true
  | _ => false

/-- Lookup of a string key in the field list of a JSON object. -/
def jlookup (fields : List (List Char × JValue)) (k : List Char) : Option JValue :=
  (fields.find? (fun kv => kv.1 == k)).map (fun kv => kv.2)

/-- Python `data[k]` for `data` a decoded JSON value: `KeyError` on a dict
missing the key, `TypeError` on any non-dict value. -/
def dict_index (data : JValue) (k : List Char) : Except PyErr JValue :=
  match data with
  | JValue.obj fields =>
    match jlookup fields k with
    | some v => Except.ok v
    | none => Except.error PyErr.keyError
  | _ => Except.error PyErr.typeError

/-- Python `data.get(k, dflt)` for `data` a decoded JSON value (on a
non-dict the attribute access raises; modelled as `typeError`). -/
def dict_get (data : JValue) (k : List Char) (dflt : JValue) : Except PyErr JValue :=
  match data with
  | JValue.obj fields => Except.ok ((jlookup fields k).getD dflt)
  | _ => Except.error PyErr.typeError

/-- `ai_bridge.py` lines 24-48, `GenerationRequest`: field values are kept
as decoded JSON values, exactly as `from_dict` stores them (no coercion). -/
structure GenerationRequest where
  task_type : JValue
  prompt : JValue
  output_file : JValue
  context : JValue

/-- `ai_bridge.py` lines 41-48, `GenerationRequest.from_dict`. -/
def from_dict (data : JValue) : Except PyErr GenerationRequest := do
  let t ← dict_index data (chars "task_type")
  let p ← dict_index data (chars "prompt")
  let o ← dict_index data (chars "output_file")
  let c ← dict_get data (chars "context") (JValue.obj [])
  Except.ok ⟨t, p, o, c⟩

/-- The state of the request-descriptor file `REQUEST_FILE`, classified by
what `json.load` does with it: `none` = the file does not exist,
`some none` = the file exists but is not decodable JSON
(`json.JSONDecodeError`), `some (some v)` = the file decodes to `v`. -/
abbrev RequestFileState := Option (Option JValue)

/-- `ai_bridge.py` lines 133-142, `AIBridge.check_request`: the `except`
clause catches only `json.JSONDecodeError` and `KeyError`; any other
exception from `from_dict` propagates to the caller (modelled as
`Except.error`). -/
def check_request (request_file : RequestFileState) :
    Except PyErr (Option GenerationRequest) :=
  match request_file with
  | none => Except.ok none
  | some none => Except.ok none
  | some (some data) =>
    match from_dict data with
    | Except.ok r => Except.ok (some r)
    | Except.error PyErr.keyError => Except.ok none
    | Except.error e => Except.error e

/-- The bridge-visible file system: the single request-descriptor slot plus
the `process/` output directory (newest write first; `readProcess` returns
the newest content for a name). -/
structure BridgeFS where
  request_file : RequestFileState
  process : List (List Char × List Char)

/-- Reading `PROCESS_DIR / name` in a `BridgeFS`. -/
def readProcess (fs : BridgeFS) (name : List Char) : Option (List Char) :=
  (fs.process.find? (fun f => f.1 == name)).map (fun f => f.2)

/-- `ai_bridge.py` lines 144-156, `AIBridge.complete_request`: read the
pending descriptor, write `content` to its declared output path, delete the
descriptor, return `True`; return `False` when no valid request is pending.
A non-string `output_file` makes the `PROCESS_DIR / ...` path construction
raise `TypeError`. -/
def complete_request (content : List Char) (fs : BridgeFS) :
    Except PyErr (BridgeFS × Bool) :=
  match check_request fs.request_file with
  | Except.error e => Except.error e
  | Except.ok none => Except.ok (fs, false)
  | Except.ok (some req) =>
    match req.output_file with
    | JValue.str name =>
      Except.ok ({ request_file := none, process := (name, content) :: fs.process }, true)
    | _ => Except.error PyErr.typeError

/-- The files written by the two submit entry points (identified by role;
the prompt-record and pending-marker files are both written with the raw
prompt text as content). -/
inductive WriteEvt where
  | requestFile : WriteEvt
  | promptRecord (output_file : List Char) : WriteEvt
  | pendingMarker (output_file : List Char) : WriteEvt
deriving DecidableEq

/-- The display form of `PROCESS_DIR / output_file` used in error messages. -/
def output_path_of (output_file : List Char) : List Char :=
  chars "process/" ++ output_file

/-- `ai_bridge.py` lines 117-120: the timeout error message of
`request_generation`. -/
def timeout_message_bridge (output_path : List Char) : List Char :=
  chars "输出文件未找到: " ++ output_path ++
    chars "\n自动生成未能完成，请检查 VSCode 扩展是否正在运行"

/-- `main.py` lines 1456-1459: the timeout error message of `_call_claude`
in auto mode. -/
def timeout_message_auto (output_path : List Char) : List Char :=
  chars "输出文件未找到: " ++ output_path ++
    chars "\n自动生成未能完成，请检查系统配置"

/-- The bounded 1-second polling loop shared by `request_generation`
(`ai_bridge.py` lines 94-122) and `_call_claude` auto mode (`main.py` lines
1434-1461): `env t` is the content of the expected output file at poll `t`
(`none` = absent).  While fuel remains, a non-empty file is returned (with
the request file / marker cleaned up, the returned `Bool`); after the wait
bound, a missing file is the timeout error and an existing file is read and
returned without cleanup. -/
def poll_for_output (env : Nat → Option (List Char)) (timeout_error : List Char) :
    Nat → Nat → Except (List Char) (List Char) × Bool
  | 0, t =>
    (match env t with
     | none => Except.error timeout_error
     | some c => Except.ok c, false)
  | fuel + 1, t =>
    match env t with
    | some c =>
      if 0 < c.length then (Except.ok c, true)
      else poll_for_output env timeout_error fuel (t + 1)
    | none => poll_for_output env timeout_error fuel (t + 1)

/-- `ai_bridge.py` lines 67-131, `AIBridge.request_generation`: write the
JSON descriptor to the request slot (its only write), then poll for the
output file for `max_wait = 600` seconds at 1-second intervals.  Returns
the ordered list of files written together with the polling outcome
(content or timeout error, plus whether the descriptor was cleaned up). -/
def request_generation (task_type prompt output_file : List Char)
    (env : Nat → Option (List Char)) :
    List WriteEvt × (Except (List Char) (List Char) × Bool) :=
  ([WriteEvt.requestFile],
   poll_for_output env (timeout_message_bridge (output_path_of output_file)) 600 0)

/-- `main.py` lines 1402-1470, `ClaudeCodeIntegrator._call_claude` in auto
mode: write the prompt record `<output_file>.prompt`; if the output file
already exists non-empty (`preexisting`), return it at once; otherwise
write the pending marker `<output_file>.pending` and poll with
`max_wait = 600` at 1-second intervals. -/
def call_claude_auto (prompt output_file : List Char)
    (preexisting : Option (List Char)) (env : Nat → Option (List Char)) :
    List WriteEvt × Except (List Char) (List Char) :=
  let prewrites := [WriteEvt.promptRecord output_file]
  let wait :=
    (prewrites ++ [WriteEvt.pendingMarker output_file],
     (poll_for_output env (timeout_message_auto (output_path_of output_file)) 600 0).1)
  match preexisting with
  | some c => if 0 < c.length then (prewrites, Except.ok c) else wait
  | none => wait

/-- The outcome of `AIBridge.call_claude_cli` as observed by its callers:
either a `RuntimeError` (non-zero exit, timeout, missing executable), or
the raw standard output `raw` paired with the result `parsed` of
`json.loads(raw)` (`none` = `json.JSONDecodeError`). -/
inductive CliOutcome where
  | fail : CliOutcome
  | ok (raw : List Char) (parsed : Option JValue) : CliOutcome

/-- `ai_bridge.py` lines 546-553 of `expand_document_template`: unwrap the
CLI JSON envelope.  When the stripped output starts with `{` and decodes to
a dict with a `"result"` field, that field replaces the result; a non-string
field value or a non-dict decode with a `"result"` membership test of the
wrong type raises past the handlers (`typeError`). -/
def unwrap_result (raw : List Char) (parsed : Option JValue) :
    Except PyErr (List Char) :=
  if isPre (chars "\x7b") (pyStrip raw) = true then
    match parsed with
    | none => Except.ok raw
    | some (JValue.obj fields) =>
      match jlookup fields (chars "result") with
      | some (JValue.str s) => Except.ok s
      | some _ => Except.error PyErr.typeError
      | none => Except.ok raw
    | some (JValue.arr elems) =>
      if elems.any (fun v => match v with | JValue.str s => s == chars "result" | _ => false)
      then Except.error PyErr.typeError
      else Except.ok raw
    | some (JValue.str s) =>
      if hasSub (chars "result") s = true then Except.error PyErr.typeError
      else Except.ok raw
    | some _ => Except.error PyErr.typeError
  else Except.ok raw

/-- `ai_bridge.py` lines 556-563 of `expand_document_template`: strip
whitespace and markdown code fences from the unwrapped result. -/
def strip_code_fences (r0 : List Char) : List Char :=
  let r1 := pyStrip r0
  let r2 :=
    if isPre (chars "\x60\x60\x60") r1 = true then
      (if r1.contains '\n' then afterFirstNL r1 else r1.drop 3)
    else r1
  let r3 :=
    if isSuf (chars "\x60\x60\x60") r2 = true then pyRStrip (r2.take (r2.length - 3))
    else r2
  pyStrip r3

/-- `ai_bridge.py` lines 543-575, the generation-and-acceptance core of
`expand_document_template`: a `RuntimeError` from the CLI call, or the
internally raised `ValueError` when the cleaned result is shorter than half
the template (`len(result) < len(template) * 0.5`, i.e.
`2 * len(result) < len(template)` — `n * 0.5` is exact in floating point),
are caught and yield the original template; otherwise the cleaned result is
returned. -/
def expand_document_template (template_content : List Char) (cli : CliOutcome) :
    Except PyErr (List Char) :=
  match cli with
  | CliOutcome.fail => Except.ok template_content
  | CliOutcome.ok raw parsed =>
    match unwrap_result raw parsed with
    | Except.error e => Except.error e
    | Except.ok r0 =>
      let result := strip_code_fences r0
      if 2 * result.length < template_content.length then Except.ok template_content
      else Except.ok result

/-- Split file content at newline characters; together with
`pyStrip`-emptiness this matches Python's per-line iteration for the
purpose of counting non-blank lines (a final empty segment strips to the
empty line and is never counted). -/
def splitOnNL : List Char → List (List Char)
  | [] => [[]]
  | c :: rest =>
    if c = '\n' then [] :: splitOnNL rest
    else
      match splitOnNL rest with
      | [] => [[c]]
      | l :: ls => (c :: l) :: ls

/-- `main.py` lines 169-176, `count_lines_in_file`: the number of lines
whose `strip()` is non-empty. -/
def count_lines_in_file (content : List Char) : Nat :=
  ((splitOnNL content).filter (fun line => !(pyStrip line).isEmpty)).length

/-- `main.py` lines 179-184, `count_total_lines` over the contents of the
`*.html` files of the process directory. -/
def count_total_lines (files : List (List Char)) : Nat :=
  (files.map count_lines_in_file).sum

/-- Looking a variable up in the variable mapping (newest binding first,
modelling Python dict assignment). -/
def lookupVar (variable_map : List (List Char × List Char)) (k : List Char) :
    Option (List Char) :=
  (variable_map.find? (fun kv => kv.1 == k)).map (fun kv => kv.2)

/-- `main.py` lines 1700-1705, `SoftwareCopyrightOrchestrator.adjust_line_count`:
store `str(self.total_lines * 10)` under `"line_count"`. -/
def adjust_line_count (total_lines : Nat) (variable_map : List (List Char × List Char)) :
    List (List Char × List Char) :=
  (chars "line_count", natRepr (total_lines * 10)) :: variable_map

/-! ### Lemmas about the string primitives -/

theorem isPre_iff (x : List Char) : ∀ y, isPre x y = true ↔ ∃ r, y = x ++ r := by
  induction x with
  | nil => intro y; simp [isPre]
  | cons a as ih =>
    intro y
    cases y with
    | nil =>
      simp only [isPre, List.nil_eq, List.cons_append]
      constructor
      · intro h; exact absurd h (by simp)
      · rintro ⟨r, h⟩; exact absurd h (by simp)
    | cons b bs =>
      simp only [isPre, Bool.and_eq_true, beq_iff_eq, ih]
      constructor
      · rintro ⟨rfl, r, rfl⟩; exact ⟨r, rfl⟩
      · rintro ⟨r, h⟩
        injection h with h1 h2
        exact ⟨h1.symm, r, h2⟩

theorem hasSub_iff (x : List Char) : ∀ y, hasSub x y = true ↔ ∃ u v, y = u ++ x ++ v := by
  intro y
  induction y with
  | nil =>
    simp only [hasSub, List.isEmpty_iff]
    constructor
    · rintro rfl; exact ⟨[], [], rfl⟩
    · rintro ⟨u, v, h⟩
      rcases List.append_eq_nil.mp (List.append_eq_nil.mp h.symm).1 with ⟨-, hx⟩
      exact hx
  | cons c rest ih =>
    simp only [hasSub, Bool.or_eq_true, ih, isPre_iff]
    constructor
    · rintro (⟨r, hr⟩ | ⟨u, v, rfl⟩)
      · exact ⟨[], r, by simpa using hr⟩
      · exact ⟨c :: u, v, rfl⟩
    · rintro ⟨u, v, h⟩
      cases u with
      | nil => exact Or.inl ⟨v, by simpa using h⟩
      | cons u0 us =>
        injection h with h1 h2
        exact Or.inr ⟨us, v, h2⟩

theorem hasSub_append_left (x a b : List Char) (h : hasSub x b = true) :
    hasSub x (a ++ b) = true := by
  rw [hasSub_iff] at h ⊢
  obtain ⟨u, v, rfl⟩ := h
  exact ⟨a ++ u, v, by simp⟩

theorem hasSub_append_right (x a b : List Char) (h : hasSub x a = true) :
    hasSub x (a ++ b) = true := by
  rw [hasSub_iff] at h ⊢
  obtain ⟨u, v, rfl⟩ := h
  exact ⟨u, v ++ b, by simp⟩

theorem hasSub_self (x : List Char) : hasSub x x = true := by
  rw [hasSub_iff]; exact ⟨[], [], by simp⟩

theorem hasSub_trans (x y z : List Char) (h1 : hasSub x y = true)
    (h2 : hasSub y z = true) : hasSub x z = true := by
  rw [hasSub_iff] at h1 h2 ⊢
  obtain ⟨u, v, rfl⟩ := h1
  obtain ⟨u', v', rfl⟩ := h2
  exact ⟨u' ++ u, v ++ v', by simp⟩

theorem hasSub_length_le (x y : List Char) (h : hasSub x y = true) :
    x.length ≤ y.length := by
  rw [hasSub_iff] at h
  obtain ⟨u, v, rfl⟩ := h
  simp only [List.length_append]
  omega

theorem hasSub_pyLower (x y : List Char) (h : hasSub x y = true) :
    hasSub (pyLower x) (pyLower y) = true := by
  rw [hasSub_iff] at h ⊢
  obtain ⟨u, v, rfl⟩ := h
  exact ⟨pyLower u, pyLower v, by simp [pyLower]⟩

/-! ### Lemmas about `joinLines` -/

theorem joinLines_cons (l : List Char) (ls : List (List Char)) (h : ls ≠ []) :
    joinLines (l :: ls) = l ++ '\n' :: joinLines ls := by
  cases ls with
  | nil => exact absurd rfl h
  | cons a as => rfl

theorem joinLines_append_left : ∀ (B Y : List (List Char)),
    ∃ r, joinLines (B ++ Y) = joinLines B ++ r := by
  intro B
  induction B with
  | nil => intro Y; exact ⟨joinLines Y, by simp [joinLines]⟩
  | cons b B' ih =>
    intro Y
    cases hB' : B' with
    | nil =>
      cases Y with
      | nil => exact ⟨[], by simp [joinLines]⟩
      | cons y ys =>
        refine ⟨'\n' :: joinLines (y :: ys), ?_⟩
        rw [show ([b] ++ y :: ys) = b :: (y :: ys) by rfl,
            joinLines_cons b (y :: ys) (by simp), joinLines]
    | cons b2 B'' =>
      obtain ⟨r, hr⟩ := ih Y
      refine ⟨r, ?_⟩
      rw [← hB']
      rw [show (b :: B' ++ Y) = b :: (B' ++ Y) by rfl,
          joinLines_cons b (B' ++ Y) (by simp [hB']),
          joinLines_cons b B' (by simp [hB']), hr]
      simp

theorem joinLines_append_right : ∀ (X Z : List (List Char)),
    ∃ u, joinLines (X ++ Z) = u ++ joinLines Z := by
  intro X
  induction X with
  | nil => intro Z; exact ⟨[], by simp⟩
  | cons x X' ih =>
    intro Z
    cases hXZ : X' ++ Z with
    | nil =>
      rcases List.append_eq_nil.mp hXZ with ⟨rfl, rfl⟩
      exact ⟨x, by simp [joinLines]⟩
    | cons a as =>
      obtain ⟨u, hu⟩ := ih Z
      refine ⟨x ++ '\n' :: u, ?_⟩
      rw [show (x :: X' ++ Z) = x :: (X' ++ Z) by rfl,
          joinLines_cons x (X' ++ Z) (by simp [hXZ]), hu]
      simp

theorem hasSub_joinLines_middle (X B Y : List (List Char)) :
    hasSub (joinLines B) (joinLines (X ++ (B ++ Y))) = true := by
  obtain ⟨u, hu⟩ := joinLines_append_right X (B ++ Y)
  obtain ⟨r, hr⟩ := joinLines_append_left B Y
  rw [hu, hr, hasSub_iff]
  exact ⟨u, r, by rw [List.append_assoc]⟩

theorem hasSub_of_mem_joinLines (a : List Char) (L : List (List Char)) (h : a ∈ L) :
    hasSub a (joinLines L) = true := by
  obtain ⟨s, t, rfl⟩ := List.append_of_mem h
  have := hasSub_joinLines_middle s [a] t
  simpa [joinLines_append_left, joinLines] using this

theorem joinLines_length : ∀ L : List (List Char),
    (joinLines L).length = (L.map List.length).sum + (L.length - 1) := by
  intro L
  induction L with
  | nil => simp [joinLines]
  | cons l ls ih =>
    cases ls with
    | nil => simp [joinLines]
    | cons a as =>
      rw [joinLines_cons l (a :: as) (by simp)]
      simp only [List.length_append, List.length_cons, ih, List.map_cons,
        List.sum_cons, List.length_map]
      simp
      omega

theorem fits_before_newline : ∀ (p a' : List Char) (v b : List Char),
    '\n' ∉ p → p ++ v = a' ++ '\n' :: b → ∃ w, a' = p ++ w := by
  intro p
  induction p with
  | nil => intro a' v b _ _; exact ⟨a', rfl⟩
  | cons p0 ps ih =>
    intro a' v b hnl h
    cases a' with
    | nil =>
      injection h with h1 h2
      exact absurd (h1 ▸ List.mem_cons_self p0 ps) (by simpa [h1] using hnl)
    | cons q a'' =>
      injection h with h1 h2
      obtain ⟨w, hw⟩ := ih a'' v b (fun hm => hnl (List.mem_cons_of_mem _ hm)) h2
      exact ⟨w, by rw [hw, h1]; rfl⟩

theorem hasSub_split_at_newline : ∀ (a pat b : List Char), pat ≠ [] → '\n' ∉ pat →
    hasSub pat (a ++ '\n' :: b) = true →
    hasSub pat a = true ∨ hasSub pat b = true := by
  intro a
  induction a with
  | nil =>
    intro pat b hne hnl h
    simp only [List.nil_append, hasSub, Bool.or_eq_true] at h
    rcases h with h | h
    · rw [isPre_iff] at h
      obtain ⟨r, hr⟩ := h
      cases pat with
      | nil => exact absurd rfl hne
      | cons p0 ps =>
        injection hr with h1 h2
        exact absurd (show '\n' ∈ p0 :: ps by rw [h1]; exact List.mem_cons_self p0 ps) hnl
    · exact Or.inr h
  | cons c a' ih =>
    intro pat b hne hnl h
    rw [List.cons_append] at h
    simp only [hasSub, Bool.or_eq_true] at h
    rcases h with h | h
    · rw [isPre_iff] at h
      obtain ⟨r, hr⟩ := h
      cases pat with
      | nil => exact absurd rfl hne
      | cons p0 ps =>
        injection hr with h1 h2
        obtain ⟨w, hw⟩ := fits_before_newline ps a' r b
          (fun hm => hnl (List.mem_cons_of_mem _ hm)) h2.symm
        left
        have : isPre (p0 :: ps) (c :: a') = true := by
          rw [isPre_iff]
          exact ⟨w, by rw [hw, h1]; rfl⟩
        simp [hasSub, this]
    · rcases ih pat b hne hnl h with h' | h'
      · left; simp [hasSub, h']
      · exact Or.inr h'

theorem hasSub_joinLines_none (pat : List Char) (hne : pat ≠ []) (hnl : '\n' ∉ pat) :
    ∀ L : List (List Char), (∀ l ∈ L, hasSub pat l = false) →
    hasSub pat (joinLines L) = false := by
  intro L
  induction L with
  | nil =>
    intro _
    cases pat with
    | nil => exact absurd rfl hne
    | cons p ps => simp [joinLines, hasSub]
  | cons l ls ih =>
    intro h
    cases hls : ls with
    | nil => simpa [joinLines] using h l (by simp)
    | cons a as =>
      rw [← hls, joinLines_cons l ls (by simp [hls])]
      by_contra habs
      rw [Bool.not_eq_false] at habs
      rcases hasSub_split_at_newline l pat (joinLines ls) hne hnl habs with h' | h'
      · exact absurd h' (by simp [h l (by simp)])
      · have := ih (fun x hx => h x (List.mem_cons_of_mem _ hx))
        exact absurd h' (by simp [this])

theorem find?_none_of_lines (content : List Char) (L : List (List Char))
    (hc : content = joinLines L)
    (h : ∀ l ∈ L, ∀ pat ∈ failure_patterns, hasSub pat l = false) :
    failure_patterns.find? (fun pattern => hasSub pattern content) = none := by
  rw [List.find?_eq_none]
  intro pat hp
  have hne : pat ≠ [] ∧ '\n' ∉ pat := by
    fin_cases hp <;> exact ⟨by decide, by decide⟩
  rw [hc]
  simp [hasSub_joinLines_none pat hne.1 hne.2 L (fun l hl => h l hl pat hp)]

/-! ### Lemmas about `validate_html` -/

theorem validate_html_accepts (content : List Char)
    (h1 : hasSub (chars "<html") (pyLower content) = true)
    (h2 : hasSub (chars "<head") (pyLower content) = true)
    (h3 : hasSub (chars "<body") (pyLower content) = true)
    (h4 : hasSub (chars "</html>") (pyLower content) = true)
    (h5 : hasSub (chars "<style") (pyLower content) = true)
    (hd : failure_patterns.find? (fun pattern => hasSub pattern content) = none)
    (hl : 1000 ≤ content.length) :
    validate_html content = (true, []) := by
  have hl' : ¬ content.length < 1000 := by omega
  simp [validate_html, h1, h2, h3, h4, h5, hd, hl']

theorem validate_html_accepted_elements (content : List Char)
    (h : (validate_html content).1 = true) :
    hasSub (chars "<html") (pyLower content) = true ∧
    hasSub (chars "<head") (pyLower content) = true ∧
    hasSub (chars "<body") (pyLower content) = true ∧
    hasSub (chars "</html>") (pyLower content) = true ∧
    hasSub (chars "<style") (pyLower content) = true := by
  simp only [validate_html] at h
  split at h
  · simp at h
  · split at h
    · simp at h
    · split at h
      · simp at h
      · split at h
        · simp at h
        · split at h
          · simp at h
          · split at h
            · simp at h
            · split at h
              · simp at h
              · simp_all [Bool.not_eq_false]

/-- C3 (amended): any HTML string missing one of the five required elements
`<html`, `<head`, `<body`, `</html>`, `<style` is rejected by
`_validate_html`; the reason names the first failing check in source order,
so it identifies the missing element only when all earlier checks pass: for
the four tag checks, when the preceding tags are present; for `<style`,
additionally when no denylisted phrase occurs and the content is at least
1000 characters.  (The claim's per-element reason fails otherwise, see the
counterexample.) -/
theorem C3_validate_missing_elements (s : List Char) :
    ((hasSub (chars "<html") (pyLower s) = false ∨
      hasSub (chars "<head") (pyLower s) = false ∨
      hasSub (chars "<body") (pyLower s) = false ∨
      hasSub (chars "</html>") (pyLower s) = false ∨
      hasSub (chars "<style") (pyLower s) = false) →
      (validate_html s).1 = false) ∧
    (hasSub (chars "<html") (pyLower s) = false →
      validate_html s = (false, chars "缺少 <html> 标签")) ∧
    (hasSub (chars "<html") (pyLower s) = true →
      hasSub (chars "<head") (pyLower s) = false →
      validate_html s = (false, chars "缺少 <head> 标签")) ∧
    (hasSub (chars "<html") (pyLower s) = true →
      hasSub (chars "<head") (pyLower s) = true →
      hasSub (chars "<body") (pyLower s) = false →
      validate_html s = (false, chars "缺少 <body> 标签")) ∧
    (hasSub (chars "<html") (pyLower s) = true →
      hasSub (chars "<head") (pyLower s) = true →
      hasSub (chars "<body") (pyLower s) = true →
      hasSub (chars "</html>") (pyLower s) = false →
      validate_html s = (false, chars "缺少 </html> 结束标签")) ∧
    (hasSub (chars "<html") (pyLower s) = true →
      hasSub (chars "<head") (pyLower s) = true →
      hasSub (chars "<body") (pyLower s) = true →
      hasSub (chars "</html>") (pyLower s) = true →
      failure_patterns.find? (fun pattern => hasSub pattern s) = none →
      1000 ≤ s.length →
      hasSub (chars "<style") (pyLower s) = false →
      validate_html s = (false, chars "缺少 <style> 标签")) := by
  refine ⟨?_, ?_, ?_, ?_, ?_, ?_⟩
  · intro hdis
    by_contra hne
    have hacc : (validate_html s).1 = true := by
      cases h : (validate_html s).1
      · exact absurd h hne
      · rfl
    obtain ⟨e1, e2, e3, e4, e5⟩ := validate_html_accepted_elements s hacc
    rcases hdis with h | h | h | h | h <;> simp_all
  · intro h1
    simp [validate_html, h1]
  · intro h1 h2
    simp [validate_html, h1, h2]
  · intro h1 h2 h3
    simp [validate_html, h1, h2, h3]
  · intro h1 h2 h3 h4
    simp [validate_html, h1, h2, h3, h4]
  · intro h1 h2 h3 h4 hd hl h5
    have hl' : ¬ s.length < 1000 := by omega
    simp [validate_html, h1, h2, h3, h4, h5, hd, hl']

/-- C3 witness: a string with no `<html` tag is rejected with the matching
reason. -/
theorem C3_validate_missing_elements_witness :
    validate_html (chars "plain text, no tags") = (false, chars "缺少 <html> 标签") :=
  (C3_validate_missing_elements (chars "plain text, no tags")).2.1 (by decide)

/-- C3 counterexample: `"<html><head><body></html>"` is missing exactly
`<style` among the five elements, and `validate` rejects it, but the
surfaced reason is the length failure and does not identify `<style`. -/
theorem C3_counterexample :
    hasSub (chars "<style") (pyLower (chars "<html><head><body></html>")) = false ∧
    (validate_html (chars "<html><head><body></html>")).1 = false ∧
    hasSub (chars "<style") ((validate_html (chars "<html><head><body></html>")).2) = false ∧
    (validate_html (chars "<html><head><body></html>")).2 =
      chars "HTML 内容过短 (25 字符)" := by decide

theorem validate_html_rejects_short (content : List Char)
    (h1 : hasSub (chars "<html") (pyLower content) = true)
    (h2 : hasSub (chars "<head") (pyLower content) = true)
    (h3 : hasSub (chars "<body") (pyLower content) = true)
    (h4 : hasSub (chars "</html>") (pyLower content) = true)
    (hd : failure_patterns.find? (fun pattern => hasSub pattern content) = none)
    (hl : content.length < 1000) :
    validate_html content =
      (false, chars "HTML 内容过短 (" ++ natRepr content.length ++ chars " 字符)") := by
  simp [validate_html, h1, h2, h3, h4, hd, hl]

theorem validate_html_rejects_phrase (content : List Char)
    (h1 : hasSub (chars "<html") (pyLower content) = true)
    (h2 : hasSub (chars "<head") (pyLower content) = true)
    (h3 : hasSub (chars "<body") (pyLower content) = true)
    (h4 : hasSub (chars "</html>") (pyLower content) = true)
    (pattern : List Char)
    (hd : failure_patterns.find? (fun p => hasSub p content) = some pattern) :
    validate_html content =
      (false, chars "包含说明文字而非 HTML 代码 (检测到: \x27" ++ pattern ++ chars "\x27)") := by
  simp [validate_html, h1, h2, h3, h4, hd]

/-! ### The main fallback template always carries the required structure -/

theorem template_lines_split (m s : List Char) (info : ModuleInfo) :
    generate_html_template m s info =
      joinLines (template_head_lines m s ++
        (template_css_lines ++
          (template_body_open_lines m s info.description ++
            (template_features_lines info.features ++
              (generate_module_specific_content m s ++
                template_tail_lines m s))))) := by
  simp [generate_html_template, List.append_assoc]

theorem template_hasSub_line (m s : List Char) (info : ModuleInfo) (a : List Char)
    (ha : a ∈ template_head_lines m s ∨ a ∈ template_css_lines ∨
      a ∈ template_body_open_lines m s info.description ∨
      a ∈ template_tail_lines m s) :
    hasSub a (generate_html_template m s info) = true := by
  rw [template_lines_split]
  apply hasSub_of_mem_joinLines
  simp only [List.mem_append]
  tauto

theorem template_contains_elements (m s : List Char) (info : ModuleInfo) :
    hasSub (chars "<html") (pyLower (generate_html_template m s info)) = true ∧
    hasSub (chars "<head") (pyLower (generate_html_template m s info)) = true ∧
    hasSub (chars "<body") (pyLower (generate_html_template m s info)) = true ∧
    hasSub (chars "</html>") (pyLower (generate_html_template m s info)) = true ∧
    hasSub (chars "<style") (pyLower (generate_html_template m s info)) = true := by
  refine ⟨?_, ?_, ?_, ?_, ?_⟩
  · exact hasSub_trans _ _ _ (by decide)
      (hasSub_pyLower _ _ (template_hasSub_line m s info (chars "<html lang=\"zh-CN\">")
        (Or.inl (by simp [template_head_lines]))))
  · exact hasSub_trans _ _ _ (by decide)
      (hasSub_pyLower _ _ (template_hasSub_line m s info (chars "<head>")
        (Or.inl (by simp [template_head_lines]))))
  · exact hasSub_trans _ _ _ (by decide)
      (hasSub_pyLower _ _ (template_hasSub_line m s info (chars "<body>")
        (Or.inr (Or.inr (Or.inl (by simp [template_body_open_lines]))))))
  · exact hasSub_trans _ _ _ (by decide)
      (hasSub_pyLower _ _ (template_hasSub_line m s info (chars "</html>")
        (Or.inr (Or.inr (Or.inr (by simp [template_tail_lines]))))))
  · exact hasSub_trans _ _ _ (by decide)
      (hasSub_pyLower _ _ (template_hasSub_line m s info (chars "    <style>")
        (Or.inr (Or.inl (by simp [template_css_lines])))))

theorem template_length_ge (m s : List Char) (info : ModuleInfo) :
    1000 ≤ (generate_html_template m s info).length := by
  have hcss : hasSub (joinLines template_css_lines)
      (generate_html_template m s info) = true := by
    rw [template_lines_split]
    have := hasSub_joinLines_middle (template_head_lines m s) template_css_lines
      (template_body_open_lines m s info.description ++
        (template_features_lines info.features ++
          (generate_module_specific_content m s ++ template_tail_lines m s)))
    simpa [List.append_assoc] using this
  have hle := hasSub_length_le _ _ hcss
  have hbig : 1000 ≤ (joinLines template_css_lines).length := by
    rw [joinLines_length]
    decide
  omega

theorem hasSub_tag_joined (tag line : List Char) (L : List (List Char))
    (h : hasSub tag (pyLower line) = true) (hm : line ∈ L) :
    hasSub tag (pyLower (joinLines L)) = true :=
  hasSub_trans _ _ _ h (hasSub_pyLower _ _ (hasSub_of_mem_joinLines line L hm))

theorem validate_joined_short (L : List (List Char)) (l1 l2 l3 l4 : List Char)
    (m1 : l1 ∈ L) (m2 : l2 ∈ L) (m3 : l3 ∈ L) (m4 : l4 ∈ L)
    (t1 : hasSub (chars "<html") (pyLower l1) = true)
    (t2 : hasSub (chars "<head") (pyLower l2) = true)
    (t3 : hasSub (chars "<body") (pyLower l3) = true)
    (t4 : hasSub (chars "</html>") (pyLower l4) = true)
    (hclean : ∀ l ∈ L, ∀ pat ∈ failure_patterns, hasSub pat l = false)
    (hshort : (joinLines L).length < 1000) :
    validate_html (joinLines L) =
      (false, chars "HTML 内容过短 (" ++ natRepr (joinLines L).length ++ chars " 字符)") :=
  validate_html_rejects_short _
    (hasSub_tag_joined _ l1 L t1 m1) (hasSub_tag_joined _ l2 L t2 m2)
    (hasSub_tag_joined _ l3 L t3 m3) (hasSub_tag_joined _ l4 L t4 m4)
    (find?_none_of_lines _ L rfl hclean) hshort

theorem bridge_fallback_empty_eval :
    validate_html (generate_html_fallback [] [] ⟨[], []⟩) =
      (false, chars "HTML 内容过短 (987 字符)") := by
  have hc : generate_html_fallback [] [] ⟨[], []⟩ = joinLines fallback_empty_lines := by
    rfl
  have hlen : (joinLines fallback_empty_lines).length = 987 := by
    rw [joinLines_length]; decide
  rw [hc, validate_joined_short fallback_empty_lines
    (chars "<html lang=\"zh-CN\">") (chars "<head>") (chars "<body>") (chars "</html>")
    (by decide) (by decide) (by decide) (by decide)
    (by decide) (by decide) (by decide) (by decide)
    (by decide) (by rw [hlen]; omega), hlen]
  decide

/-- C1 (amended): the claim — every fallback output, from both entry points
and every dispatch branch, for all inputs, is accepted by `validate` — fails:
the bridge's simplified fallback (`_generate_html_fallback`) at empty module
name, software name, description and features produces 987 characters and is
rejected by the 1000-character minimum, and a module name that itself
contains a denylisted phrase defeats the phrase check of the main template.
Amended: for every module name, software name and module info, the main
template generator's output contains `<html`, `<head`, `<body`, `</html>`
and `<style` (case-insensitively) and has raw length at least 1000, hence —
in every keyword-dispatch branch and the catch-all — it is accepted by
`validate` whenever no denylisted phrase occurs in its output; the bridge
fallback at all-empty inputs is rejected as too short. -/
theorem C1_fallback_validation (m s : List Char) (info : ModuleInfo) :
    (hasSub (chars "<html") (pyLower (generate_html_template m s info)) = true ∧
     hasSub (chars "<head") (pyLower (generate_html_template m s info)) = true ∧
     hasSub (chars "<body") (pyLower (generate_html_template m s info)) = true ∧
     hasSub (chars "</html>") (pyLower (generate_html_template m s info)) = true ∧
     hasSub (chars "<style") (pyLower (generate_html_template m s info)) = true ∧
     1000 ≤ (generate_html_template m s info).length) ∧
    (failure_patterns.find?
        (fun pattern => hasSub pattern (generate_html_template m s info)) = none →
      validate_html (generate_html_template m s info) = (true, [])) ∧
    validate_html (generate_html_fallback [] [] ⟨[], []⟩) =
      (false, chars "HTML 内容过短 (987 字符)") := by
  obtain ⟨e1, e2, e3, e4, e5⟩ := template_contains_elements m s info
  refine ⟨⟨e1, e2, e3, e4, e5, template_length_ge m s info⟩, ?_,
    bridge_fallback_empty_eval⟩
  intro hd
  exact validate_html_accepts _ e1 e2 e3 e4 e5 hd (template_length_ge m s info)

/-- C1 witness: at a concrete module ("测试", hitting the catch-all branch)
the main template generator's output is accepted by `validate`. -/
theorem C1_fallback_validation_witness :
    validate_html (generate_html_template (chars "测试") (chars "软件") ⟨[], []⟩) =
      (true, []) :=
  (C1_fallback_validation (chars "测试") (chars "软件") ⟨[], []⟩).2.1
    (find?_none_of_lines _ _
      (template_lines_split (chars "测试") (chars "软件") ⟨[], []⟩) (by decide))

/-- C1 counterexample: the claim fails at explicit inputs — the bridge
fallback at all-empty inputs is rejected by `validate` (987 characters,
below the 1000 minimum), and the main template generator's output for a
module whose name is itself a denylisted phrase is rejected by the
explanatory-phrase check. -/
theorem C1_counterexample :
    (validate_html (generate_html_fallback [] [] ⟨[], []⟩)).1 = false ∧
    (validate_html (generate_html_template
        (chars "I\x27ve created a complete") [] ⟨[], []⟩)).1 = false := by
  constructor
  · rw [bridge_fallback_empty_eval]
  · obtain ⟨e1, e2, e3, e4, -⟩ := template_contains_elements
      (chars "I\x27ve created a complete") [] ⟨[], []⟩
    have hmem : (chars "    <title>I\x27ve created a complete - </title>") ∈
        template_head_lines (chars "I\x27ve created a complete") [] := by decide
    have hphrase : hasSub (chars "I\x27ve created a complete")
        (generate_html_template (chars "I\x27ve created a complete") [] ⟨[], []⟩)
          = true :=
      hasSub_trans _ _ _ (by decide)
        (template_hasSub_line _ _ _ _ (Or.inl hmem))
    have hfind : failure_patterns.find?
        (fun p => hasSub p (generate_html_template
          (chars "I\x27ve created a complete") [] ⟨[], []⟩)) =
        some (chars "I\x27ve created a complete") := by
      simp only [failure_patterns]
      exact List.find?_cons_of_pos _ hphrase
    rw [validate_html_rejects_phrase _ e1 e2 e3 e4 _ hfind]

/-! ### C2: the validation-and-retry loop -/

/-- C2: for each module the frontend-generation step makes at most 3
generation attempts (the outcome depends only on the first three oracle
results); the file deleted before each retry means a rejected attempt is
regenerated rather than re-read, so the loop returns the first accepted
attempt; after three rejections it does not fail but stores the fallback
template content — every module ends with exactly one HTML artifact. -/
theorem C2_retry_policy (oracle : Nat → List Char) (m s : List Char)
    (info : ModuleInfo) :
    (∃ c, generate_frontend_module oracle m s info = some c) ∧
    (∀ oracle2 : Nat → List Char, (∀ k, k < 3 → oracle k = oracle2 k) →
      generate_frontend_module oracle2 m s info =
        generate_frontend_module oracle m s info) ∧
    ((∀ k, k < 3 → (validate_html (oracle k)).1 = false) →
      generate_frontend_module oracle m s info =
        some (generate_html_template m s info)) ∧
    (∀ k, k < 3 → (∀ j, j < k → (validate_html (oracle j)).1 = false) →
      (validate_html (oracle k)).1 = true →
      generate_frontend_module oracle m s info = some (oracle k)) := by
  have key : ∀ or2 : Nat → List Char,
      run_attempts or2 (generate_html_template m s info) [0, 1, 2] none =
        (if (validate_html (or2 0)).1 = true then some (or2 0)
         else if (validate_html (or2 1)).1 = true then some (or2 1)
         else if (validate_html (or2 2)).1 = true then some (or2 2)
         else some (generate_html_template m s info)) := by
    intro or2
    simp [run_attempts]
  refine ⟨?_, ?_, ?_, ?_⟩
  · rw [generate_frontend_module, key]
    split_ifs <;> exact ⟨_, rfl⟩
  · intro oracle2 h
    rw [generate_frontend_module, generate_frontend_module, key, key,
      h 0 (by omega), h 1 (by omega), h 2 (by omega)]
  · intro h
    rw [generate_frontend_module, key]
    simp [h 0 (by omega), h 1 (by omega), h 2 (by omega)]
  · intro k hk hprev hvk
    interval_cases k
    · rw [generate_frontend_module, key]; simp [hvk]
    · rw [generate_frontend_module, key]; simp [hprev 0 (by omega), hvk]
    · rw [generate_frontend_module, key]
      simp [hprev 0 (by omega), hprev 1 (by omega), hvk]

/-- C2 witness: with an oracle that always produces an empty (hence
rejected) candidate, the module ends with the fallback template content. -/
theorem C2_retry_policy_witness :
    generate_frontend_module (fun _ => []) (chars "测试") (chars "软件") ⟨[], []⟩ =
      some (generate_html_template (chars "测试") (chars "软件") ⟨[], []⟩) :=
  (C2_retry_policy (fun _ => []) (chars "测试") (chars "软件") ⟨[], []⟩).2.2.1
    (fun k _ => by decide)

/-! ### C4 and C5: the submit entry points -/

/-- C4 (amended): no submit entry point writes all three request artifacts.
Before waiting, the bridge's `request_generation` writes exactly the JSON
request descriptor to the well-known slot (and never writes a prompt record
or pending marker), while `_call_claude` in auto mode writes exactly the
prompt record `<outputFile>.prompt` and the pending marker
`<outputFile>.pending` (and never the descriptor); with a pre-existing
non-empty output file `_call_claude` writes only the prompt record. -/
theorem C4_submit_prewrites (task_type prompt output_file : List Char)
    (env : Nat → Option (List Char)) :
    (request_generation task_type prompt output_file env).1 =
      [WriteEvt.requestFile] ∧
    (call_claude_auto prompt output_file none env).1 =
      [WriteEvt.promptRecord output_file, WriteEvt.pendingMarker output_file] ∧
    (∀ c : List Char, 0 < c.length →
      (call_claude_auto prompt output_file (some c) env).1 =
        [WriteEvt.promptRecord output_file]) := by
  refine ⟨rfl, rfl, ?_⟩
  intro c hc
  simp [call_claude_auto, hc]

/-- C4 witness: with a pre-existing non-empty output, only the prompt
record is written. -/
theorem C4_submit_prewrites_witness :
    (call_claude_auto (chars "p") (chars "x.json") (some (chars "y"))
      (fun _ => none)).1 = [WriteEvt.promptRecord (chars "x.json")] :=
  (C4_submit_prewrites (chars "srs") (chars "p") (chars "x.json")
    (fun _ => none)).2.2 (chars "y") (by decide)

/-- C4 counterexample: at an explicit call, neither entry point writes all
three artifacts — `request_generation` writes no prompt record and no
pending marker, and `_call_claude` writes no descriptor. -/
theorem C4_counterexample :
    ¬ (WriteEvt.requestFile ∈
        (request_generation (chars "srs") (chars "p") (chars "x.json")
          (fun _ => none)).1 ∧
       WriteEvt.promptRecord (chars "x.json") ∈
        (request_generation (chars "srs") (chars "p") (chars "x.json")
          (fun _ => none)).1 ∧
       WriteEvt.pendingMarker (chars "x.json") ∈
        (request_generation (chars "srs") (chars "p") (chars "x.json")
          (fun _ => none)).1) ∧
    ¬ (WriteEvt.requestFile ∈
        (call_claude_auto (chars "p") (chars "x.json") none (fun _ => none)).1 ∧
       WriteEvt.promptRecord (chars "x.json") ∈
        (call_claude_auto (chars "p") (chars "x.json") none (fun _ => none)).1 ∧
       WriteEvt.pendingMarker (chars "x.json") ∈
        (call_claude_auto (chars "p") (chars "x.json") none (fun _ => none)).1) := by
  constructor
  · rintro ⟨-, h, -⟩
    simp [request_generation] at h
  · rintro ⟨h, -, -⟩
    simp [call_claude_auto] at h

theorem poll_for_output_all_empty (env : Nat → Option (List Char))
    (msg : List Char) :
    ∀ fuel t, (∀ i, i < fuel → ∀ c, env (t + i) = some c → c.length = 0) →
    poll_for_output env msg fuel t =
      (match env (t + fuel) with
       | none => (Except.error msg, false)
       | some c => (Except.ok c, false)) := by
  intro fuel
  induction fuel with
  | zero =>
    intro t _
    rcases he : env t with _ | c <;> simp [poll_for_output, he]
  | succ fuel ih =>
    intro t h
    have hrec := ih (t + 1) (fun i hi c hc => by
      have := h (i + 1) (by omega) c
      rw [show t + (i + 1) = t + 1 + i by omega] at this
      exact this hc)
    have hshift : t + 1 + fuel = t + (fuel + 1) := by omega
    rcases he : env t with _ | c
    · simp only [poll_for_output, he]
      rw [hrec, hshift]
    · have h0 : c.length = 0 := h 0 (by omega) c (by simpa using he)
      simp only [poll_for_output, he]
      rw [if_neg (by omega), hrec, hshift]

/-- C5: when nothing non-empty appears during the 600-second 1-second-poll
wait of `request_generation`: if the expected output file does not exist at
the timeout check, the call fails with an error message that names the
expected output path; if the file does exist at that moment, its content is
read and returned instead. -/
theorem C5_timeout_behavior (task_type prompt output_file : List Char)
    (env : Nat → Option (List Char))
    (hquiet : ∀ t, t < 600 → ∀ c, env t = some c → c.length = 0) :
    (env 600 = none →
      (request_generation task_type prompt output_file env).2.1 =
        Except.error (timeout_message_bridge (output_path_of output_file)) ∧
      hasSub (output_path_of output_file)
        (timeout_message_bridge (output_path_of output_file)) = true) ∧
    (∀ c, env 600 = some c →
      (request_generation task_type prompt output_file env).2.1 =
        Except.ok c) := by
  have hp := poll_for_output_all_empty env
    (timeout_message_bridge (output_path_of output_file)) 600 0
    (fun i hi c hc => hquiet i (by omega) c (by simpa using hc))
  constructor
  · intro h600
    refine ⟨?_, ?_⟩
    · simp only [request_generation, hp]
      rw [show (0 + 600 : Nat) = 600 by omega, h600]
    · rw [hasSub_iff]
      exact ⟨chars "输出文件未找到: ",
        chars "\n自动生成未能完成，请检查 VSCode 扩展是否正在运行",
        by simp [timeout_message_bridge]⟩
  · intro c h600
    simp only [request_generation, hp]
    rw [show (0 + 600 : Nat) = 600 by omega, h600]

/-- C5 witness: with an output file that never appears, the call fails with
the timeout error naming the expected path `process/x.json`. -/
theorem C5_timeout_behavior_witness :
    (request_generation (chars "srs") (chars "p") (chars "x.json")
        (fun _ => none)).2.1 =
      Except.error (timeout_message_bridge (output_path_of (chars "x.json"))) :=
  ((C5_timeout_behavior (chars "srs") (chars "p") (chars "x.json")
      (fun _ => none)
      (fun _ _ _ hc => Option.noConfusion hc)).1 rfl).1

/-! ### C9: the displayed line count -/

/-- C9: the `line_count` figure stored in the variable set is exactly the
decimal rendering of 10 times the internal line count, where the internal
count sums the non-blank lines of all generated HTML files. -/
theorem C9_line_count_display (files : List (List Char))
    (variable_map : List (List Char × List Char)) :
    lookupVar (adjust_line_count (count_total_lines files) variable_map)
        (chars "line_count") =
      some (natRepr (10 * count_total_lines files)) ∧
    count_total_lines files =
      (files.map (fun content =>
        ((splitOnNL content).filter
          (fun line => !(pyStrip line).isEmpty)).length)).sum := by
  constructor
  · rw [Nat.mul_comm]
    simp [lookupVar, adjust_line_count, List.find?]
  · rfl

/-! ### C8: the document-expansion acceptance threshold -/

/-- C8: a failed external call yields the original template with no error;
a successful call is post-processed (JSON unwrap, fence stripping), then
accepted exactly when twice its cleaned length reaches the pre-expansion
length (`len < 0.5 * len(template)` rejects), the original template being
returned otherwise. -/
theorem C8_expansion_threshold (template_content raw : List Char)
    (parsed : Option JValue) :
    (expand_document_template template_content CliOutcome.fail =
      Except.ok template_content) ∧
    (∀ r0, unwrap_result raw parsed = Except.ok r0 →
      (2 * (strip_code_fences r0).length < template_content.length →
        expand_document_template template_content (CliOutcome.ok raw parsed) =
          Except.ok template_content) ∧
      (template_content.length ≤ 2 * (strip_code_fences r0).length →
        expand_document_template template_content (CliOutcome.ok raw parsed) =
          Except.ok (strip_code_fences r0))) := by
  refine ⟨rfl, ?_⟩
  intro r0 h
  constructor
  · intro hlt
    simp [expand_document_template, h, hlt]
  · intro hge
    have hn : ¬ (2 * (strip_code_fences r0).length < template_content.length) := by
      omega
    simp [expand_document_template, h, hn]

/-- C8 witness: a cleaned result of 5 characters against a 12-character
template (5 < 12 * 0.5) silently yields the original template. -/
theorem C8_expansion_threshold_witness :
    expand_document_template (chars "0123456789ab")
        (CliOutcome.ok (chars "short") none) =
      Except.ok (chars "0123456789ab") :=
  ((C8_expansion_threshold (chars "0123456789ab") (chars "short") none).2
    (chars "short") rfl).1 (by decide)

/-! ### C6 and C10: completing and checking requests -/

/-- C6: for a pending descriptor that parses to a valid request with a
string output path, `complete_request content` writes exactly `content` to
the declared output path and deletes the descriptor. -/
theorem C6_complete_roundtrip (fs : BridgeFS) (d : JValue)
    (req : GenerationRequest) (name content : List Char)
    (hfile : fs.request_file = some (some d))
    (hparse : from_dict d = Except.ok req)
    (hout : req.output_file = JValue.str name) :
    ∃ fs', complete_request content fs = Except.ok (fs', true) ∧
      readProcess fs' name = some content ∧
      fs'.request_file = none := by
  refine ⟨⟨none, (name, content) :: fs.process⟩, ?_, ?_, rfl⟩
  · simp [complete_request, check_request, hfile, hparse, hout]
  · simp [readProcess, List.find?]

/-- C6 witness: completing a concrete pending request stores the content at
its declared output path and removes the descriptor. -/
theorem C6_complete_roundtrip_witness :
    ∃ fs', complete_request (chars "hello")
        ⟨some (some (JValue.obj
          [(chars "task_type", JValue.str (chars "srs")),
           (chars "prompt", JValue.str (chars "p")),
           (chars "output_file", JValue.str (chars "x.json"))])), []⟩ =
        Except.ok (fs', true) ∧
      readProcess fs' (chars "x.json") = some (chars "hello") ∧
      fs'.request_file = none :=
  C6_complete_roundtrip _ _
    ⟨JValue.str (chars "srs"), JValue.str (chars "p"),
     JValue.str (chars "x.json"), JValue.obj []⟩
    (chars "x.json") (chars "hello") rfl (by rfl) rfl

theorem from_dict_obj_not_typeError (fields : List (List Char × JValue)) :
    from_dict (JValue.obj fields) ≠ Except.error PyErr.typeError := by
  intro h
  simp only [from_dict, dict_index, dict_get, bind, Except.bind] at h
  rcases h1 : jlookup fields (chars "task_type") with _ | t <;>
    rcases h2 : jlookup fields (chars "prompt") with _ | p <;>
      rcases h3 : jlookup fields (chars "output_file") with _ | o <;>
        simp [h1, h2, h3] at h

/-- C10 (amended): `check_request` returns without an exception — either a
parsed request or `None` — whenever the descriptor file is absent, is not
decodable JSON, or decodes to a JSON object (of any field shape, missing
keys included); but a file decoding to a non-object JSON value (array,
string, number, boolean, null) raises an uncaught `TypeError` from the
`data["task_type"]` subscript, which propagates to the caller. -/
theorem C10_check_request_no_exception :
    (∀ st : RequestFileState,
      st = none ∨ st = some none ∨
        (∃ fields, st = some (some (JValue.obj fields))) →
      ∃ r, check_request st = Except.ok r) ∧
    (∀ v : JValue, isObj v = false →
      check_request (some (some v)) = Except.error PyErr.typeError) := by
  constructor
  · rintro st (rfl | rfl | ⟨fields, rfl⟩)
    · exact ⟨none, rfl⟩
    · exact ⟨none, rfl⟩
    · rcases hfd : from_dict (JValue.obj fields) with e | r
      · cases e with
        | keyError => exact ⟨none, by simp [check_request, hfd]⟩
        | typeError => exact absurd hfd (from_dict_obj_not_typeError fields)
      · exact ⟨some r, by simp [check_request, hfd]⟩
  · intro v hv
    cases v <;> first
      | rfl
      | simp [isObj] at hv

/-- C10 witness: an object descriptor with missing keys yields `None`
without an exception. -/
theorem C10_check_request_no_exception_witness :
    ∃ r, check_request (some (some (JValue.obj [(chars "foo", JValue.null)]))) =
      Except.ok r :=
  C10_check_request_no_exception.1 _ (Or.inr (Or.inr ⟨_, rfl⟩))

/-- C10 counterexample: a descriptor file containing the valid JSON array
`[]` makes `check_request` raise `TypeError` instead of returning `None`. -/
theorem C10_counterexample :
    check_request (some (some (JValue.arr []))) = Except.error PyErr.typeError ∧
    ¬ ∃ r, check_request (some (some (JValue.arr []))) = Except.ok r := by
  refine ⟨rfl, ?_⟩
  rintro ⟨r, h⟩
  rw [show check_request (some (some (JValue.arr []))) =
    Except.error PyErr.typeError from rfl] at h
  exact Except.noConfusion h

/-! ### C7: template substitution -/

theorem pyReplaceF_nil (pat rep : List Char) (fuel : Nat) :
    pyReplaceF pat rep fuel [] = [] := by
  cases fuel <;> rfl

theorem pyReplaceF_succ_cons (pat rep : List Char) (fuel : Nat) (c : Char)
    (rest : List Char) :
    pyReplaceF pat rep (fuel + 1) (c :: rest) =
      if pat ≠ [] ∧ isPre pat (c :: rest) = true then
        rep ++ pyReplaceF pat rep fuel (List.drop (pat.length - 1) rest)
      else c :: pyReplaceF pat rep fuel rest := rfl

theorem pyReplaceF_fuel_irrel (pat rep : List Char) :
    ∀ fuel fuel' s, s.length ≤ fuel → s.length ≤ fuel' →
      pyReplaceF pat rep fuel s = pyReplaceF pat rep fuel' s := by
  intro fuel
  induction fuel with
  | zero =>
    intro fuel' s hs _
    have hnil : s = [] := List.eq_nil_of_length_eq_zero (by omega)
    subst hnil
    rw [pyReplaceF_nil, pyReplaceF_nil]
  | succ fuel ih =>
    intro fuel' s hs hs'
    cases s with
    | nil => rw [pyReplaceF_nil, pyReplaceF_nil]
    | cons c rest =>
      cases fuel' with
      | zero => simp at hs'
      | succ fuel'' =>
        rw [pyReplaceF_succ_cons, pyReplaceF_succ_cons]
        have hdrop := List.length_drop (pat.length - 1) rest
        have hrest : rest.length ≤ fuel := by simp at hs; omega
        have hrest' : rest.length ≤ fuel'' := by simp at hs'; omega
        by_cases hcond : pat ≠ [] ∧ isPre pat (c :: rest) = true
        · rw [if_pos hcond, if_pos hcond]
          rw [ih fuel'' (List.drop (pat.length - 1) rest) (by omega) (by omega)]
        · rw [if_neg hcond, if_neg hcond]
          rw [ih fuel'' rest hrest hrest']

theorem pyReplace_nil_eq (pat rep : List Char) : pyReplace pat rep [] = [] := rfl

theorem pyReplace_cons_match (pat rep : List Char) (c : Char) (rest : List Char)
    (hne : pat ≠ []) (hpre : isPre pat (c :: rest) = true) :
    pyReplace pat rep (c :: rest) =
      rep ++ pyReplace pat rep (List.drop (pat.length - 1) rest) := by
  show pyReplaceF pat rep (c :: rest).length (c :: rest) = _
  rw [show (c :: rest).length = rest.length + 1 from rfl, pyReplaceF_succ_cons,
    if_pos ⟨hne, hpre⟩]
  have hdrop := List.length_drop (pat.length - 1) rest
  rw [pyReplaceF_fuel_irrel pat rep rest.length
    (List.drop (pat.length - 1) rest).length (List.drop (pat.length - 1) rest)
    (by omega) (le_refl _)]
  rfl

theorem pyReplace_cons_nomatch (pat rep : List Char) (c : Char) (rest : List Char)
    (h : ¬(pat ≠ [] ∧ isPre pat (c :: rest) = true)) :
    pyReplace pat rep (c :: rest) = c :: pyReplace pat rep rest := by
  show pyReplaceF pat rep (c :: rest).length (c :: rest) = _
  rw [show (c :: rest).length = rest.length + 1 from rfl, pyReplaceF_succ_cons,
    if_neg h]
  rfl

theorem placeholder_ne_nil (k : List Char) : placeholder k ≠ [] := by
  simp [placeholder]

theorem placeholder_length (k : List Char) :
    (placeholder k).length = k.length + 4 := by
  simp [placeholder]

theorem isPre_placeholder_full (m k w : List Char) (hm : braceFree m)
    (hk : braceFree k) (hne : m ≠ k) :
    isPre (placeholder m) (placeholder k ++ w) = false := by
  by_contra habs
  rw [Bool.not_eq_false, isPre_iff] at habs
  obtain ⟨r, hr⟩ := habs
  simp only [placeholder, List.cons_append, List.append_assoc] at hr
  injection hr with h0 hr1
  injection hr1 with h1 hr2
  rcases List.append_eq_append_iff.mp hr2 with ⟨a, ha, hxa⟩ | ⟨a, ha, hya⟩
  · cases a with
    | nil => simp at ha; exact hne ha
    | cons a0 as =>
      injection hxa with hxa0 _
      have : a0 ∈ m := by rw [ha]; exact List.mem_append_right k (by simp)
      exact hm a0 this (Or.inr hxa0.symm)
  · cases a with
    | nil => simp at ha; exact hne ha.symm
    | cons a0 as =>
      injection hya with hya0 _
      have : a0 ∈ k := by rw [ha]; exact List.mem_append_right m (by simp)
      exact hk a0 this (Or.inr hya0.symm)

theorem isPre_placeholder_inner (m k : List Char) (z w y : List Char)
    (hm : braceFree m) (hk : braceFree k) (hne : m ≠ k)
    (hz : z ≠ []) (hy : placeholder k = y ++ z) :
    isPre (placeholder m) (z ++ w) = false := by
  cases y with
  | nil =>
    rw [List.nil_append] at hy
    rw [← hy]
    exact isPre_placeholder_full m k w hm hk hne
  | cons y0 ys =>
    simp only [placeholder, List.cons_append] at hy
    injection hy with hy0 hy1
    cases ys with
    | nil =>
      rw [List.nil_append] at hy1
      rw [← hy1]
      cases k with
      | nil =>
        have hb : (('\x7b' : Char) == '\x7d') = false := by decide
        simp [placeholder, isPre, hb]
      | cons c k' =>
        have hc : (('\x7b' : Char) == c) = false := by
          rw [beq_eq_false_iff_ne]
          intro he
          exact hk c (by simp) (Or.inl he.symm)
        simp [placeholder, isPre, hc]
    | cons y1 ys' =>
      injection hy1 with hy1' hy2
      cases z with
      | nil => exact absurd rfl hz
      | cons z0 z' =>
        have hz0 : z0 ∈ k ++ ['\x7d', '\x7d'] := by
          rw [hy2]; exact List.mem_append_right ys' (by simp)
        have hz0' : (('\x7b' : Char) == z0) = false := by
          rw [beq_eq_false_iff_ne]
          intro he
          rcases List.mem_append.mp hz0 with h | h
          · exact hk z0 h (Or.inl he.symm)
          · simp at h
            rw [← he] at h
            exact absurd h (by decide)
        simp [placeholder, isPre, hz0']

theorem hasSub_placeholder_append (m k t : List Char) (hm : braceFree m)
    (hk : braceFree k) (hne : m ≠ k)
    (h : hasSub (placeholder m) (placeholder k ++ t) = true) :
    hasSub (placeholder m) t = true := by
  rw [hasSub_iff] at h
  obtain ⟨u, v, huv⟩ := h
  rw [List.append_assoc] at huv
  rcases List.append_eq_append_iff.mp huv with ⟨a, hu, hta⟩ | ⟨a, hk', hpm⟩
  · rw [hasSub_iff]
    exact ⟨a, v, by rw [hta, List.append_assoc]⟩
  · cases a with
    | nil =>
      rw [List.append_nil] at hk'
      rw [List.nil_append] at hpm
      rw [hasSub_iff]
      exact ⟨[], v, by simp [← hpm]⟩
    | cons a0 as =>
      have hpre : isPre (placeholder m) ((a0 :: as) ++ t) = true := by
        rw [isPre_iff]
        exact ⟨v, hpm.symm⟩
      have hfalse := isPre_placeholder_inner m k (a0 :: as) t u hm hk hne
        (by simp) hk'
      rw [List.cons_append] at hpre
      rw [List.cons_append] at hfalse
      rw [hfalse] at hpre
      exact Bool.noConfusion hpre

theorem pyReplace_copies (pat rep : List Char) :
    ∀ (x w : List Char),
      (∀ y z, x = y ++ z → z ≠ [] → isPre pat (z ++ w) = false) →
      pyReplace pat rep (x ++ w) = x ++ pyReplace pat rep w := by
  intro x
  induction x with
  | nil => intro w _; simp
  | cons c x' ih =>
    intro w h
    have h0 : isPre pat ((c :: x') ++ w) = false := h [] (c :: x') rfl (by simp)
    rw [List.cons_append] at h0
    rw [List.cons_append, pyReplace_cons_nomatch pat rep c (x' ++ w) (by
      rintro ⟨-, hpre⟩
      rw [h0] at hpre
      exact Bool.noConfusion hpre)]
    rw [ih w (fun y z hyz hz => h (c :: y) z (by rw [hyz]; rfl) hz)]
    rfl

theorem pyReplace_head_match (pat rep t : List Char) (hne : pat ≠ []) :
    pyReplace pat rep (pat ++ t) = rep ++ pyReplace pat rep t := by
  cases pat with
  | nil => exact absurd rfl hne
  | cons p0 ps =>
    rw [List.cons_append, pyReplace_cons_match (p0 :: ps) rep p0 (ps ++ t) hne
      (by rw [isPre_iff]; exact ⟨t, by simp⟩)]
    rw [show (p0 :: ps).length - 1 = ps.length by simp, List.drop_left]

theorem pyReplace_preserves (m k v : List Char) (hm : braceFree m)
    (hk : braceFree k) (hne : m ≠ k) :
    ∀ (n : Nat) (s : List Char), s.length ≤ n →
      hasSub (placeholder m) s = true →
      hasSub (placeholder m) (pyReplace (placeholder k) v s) = true := by
  intro n
  induction n with
  | zero =>
    intro s hs h
    have hnil : s = [] := List.eq_nil_of_length_eq_zero (by omega)
    subst hnil
    simp [hasSub, placeholder] at h
  | succ n ih =>
    intro s hs h
    cases s with
    | nil => simp [hasSub, placeholder] at h
    | cons c rest =>
      by_cases hcond : isPre (placeholder k) (c :: rest) = true
      · obtain ⟨t, ht⟩ := (isPre_iff _ _).mp hcond
        have hsub_t : hasSub (placeholder m) t = true :=
          hasSub_placeholder_append m k t hm hk hne (ht ▸ h)
        have hlc := congrArg List.length ht
        rw [List.length_append, placeholder_length] at hlc
        have hlen : t.length ≤ n := by
          simp at hlc hs
          omega
        rw [ht, pyReplace_head_match (placeholder k) v t (placeholder_ne_nil k)]
        exact hasSub_append_left _ _ _ (ih t hlen hsub_t)
      · simp only [hasSub, Bool.or_eq_true] at h
        rcases h with hpre | htail
        · obtain ⟨w, hw⟩ := (isPre_iff _ _).mp hpre
          have hcopy : pyReplace (placeholder k) v (placeholder m ++ w) =
              placeholder m ++ pyReplace (placeholder k) v w := by
            apply pyReplace_copies
            intro y z hyz hz
            cases y with
            | nil =>
              rw [List.nil_append] at hyz
              rw [← hyz]
              exact isPre_placeholder_full k m w hk hm (Ne.symm hne)
            | cons y0 ys =>
              exact isPre_placeholder_inner k m z w (y0 :: ys) hk hm
                (Ne.symm hne) hz hyz
          rw [hw, hcopy]
          exact hasSub_append_right _ _ _ (hasSub_self _)
        · rw [pyReplace_cons_nomatch (placeholder k) v c rest
            (fun hcc => hcond hcc.2)]
          have hrest := ih rest (by simp at hs; omega) htail
          exact hasSub_append_left _ [c] _ hrest

theorem replace_variables_preserves (t : List Char) (ht : braceFree t) :
    ∀ (vm : List (List Char × List Char)) (tpl : List Char),
      (∀ kv ∈ vm, braceFree kv.1) → (∀ kv ∈ vm, kv.1 ≠ t) →
      hasSub (placeholder t) tpl = true →
      hasSub (placeholder t) (replace_variables tpl vm) = true := by
  intro vm
  induction vm with
  | nil => intro tpl _ _ h; simpa [replace_variables] using h
  | cons kv vm' ih =>
    intro tpl hbf hne h
    show hasSub (placeholder t)
      (replace_variables (pyReplace (placeholder kv.1) kv.2 tpl) vm') = true
    apply ih _ (fun x hx => hbf x (List.mem_cons_of_mem _ hx))
      (fun x hx => hne x (List.mem_cons_of_mem _ hx))
    exact pyReplace_preserves t kv.1 kv.2 ht (hbf kv (List.mem_cons_self _ _))
      (Ne.symm (hne kv (List.mem_cons_self _ _))) tpl.length tpl (le_refl _) h

/-- C7 (amended): `replace_variables` substitutes `"Hello {{name}}"` with
`{name: World}` to `"Hello World"` and leaves a `{{missing}}` token with an
absent key verbatim; and in general, for brace-free keys, every `{{token}}`
occurrence with a brace-free token whose key is absent from the map still
occurs verbatim in the output.  The claim's unconditional verbatim guarantee
fails for keys containing brace characters (see the counterexample). -/
theorem C7_replace_variables (tpl : List Char)
    (vm : List (List Char × List Char)) (t : List Char) :
    replace_variables (chars "Hello \x7b\x7bname\x7d\x7d")
        [(chars "name", chars "World")] = chars "Hello World" ∧
    replace_variables (chars "Some \x7b\x7bmissing\x7d\x7d text")
        [(chars "name", chars "World")] =
      chars "Some \x7b\x7bmissing\x7d\x7d text" ∧
    ((∀ kv ∈ vm, braceFree kv.1) → braceFree t → (∀ kv ∈ vm, kv.1 ≠ t) →
      hasSub (placeholder t) tpl = true →
      hasSub (placeholder t) (replace_variables tpl vm) = true) :=
  ⟨by decide, by decide,
   fun hbf ht hne h => replace_variables_preserves t ht vm tpl hbf hne h⟩

/-- C7 witness: at a concrete template with one bound brace-free key and an
absent token, the token survives substitution verbatim. -/
theorem C7_replace_variables_witness :
    hasSub (placeholder (chars "miss"))
      (replace_variables (chars "a\x7b\x7bx\x7d\x7db \x7b\x7bmiss\x7d\x7d")
        [(chars "x", chars "V")]) = true :=
  (C7_replace_variables (chars "a\x7b\x7bx\x7d\x7db \x7b\x7bmiss\x7d\x7d")
      [(chars "x", chars "V")] (chars "miss")).2.2
    (by decide) (by decide) (by decide) (by decide)

/-- C7 counterexample: with the brace-containing key `missing}}junk`, the
template `{{missing}}junk}}` literally contains the token `{{missing}}`
whose key `missing` is absent from the map, yet substitution rewrites the
whole template to `X`, destroying the token. -/
theorem C7_counterexample :
    hasSub (placeholder (chars "missing"))
      (chars "\x7b\x7bmissing\x7d\x7djunk\x7d\x7d") = true ∧
    replace_variables (chars "\x7b\x7bmissing\x7d\x7djunk\x7d\x7d")
      [(chars "missing\x7d\x7djunk", chars "X")] = chars "X" ∧
    hasSub (placeholder (chars "missing"))
      (replace_variables (chars "\x7b\x7bmissing\x7d\x7djunk\x7d\x7d")
        [(chars "missing\x7d\x7djunk", chars "X")]) = false ∧
    chars "missing" ≠ chars "missing\x7d\x7djunk" := by decide

